import Mathlib

/-!
Verification of the Ray autoscaler v2 core (resource-demand scheduler and
reconciler) against its natural-language specification.

The development shallowly embeds the Python sources:
  * `python/ray/autoscaler/v2/scheduler.py` — data model, `ScheduleContext`,
    `ResourceDemandScheduler.schedule` (phase 1 `_enforce_min_workers` is real
    code, phases 2–4 are placeholders returning empty lists in the source);
  * `python/ray/autoscaler/v2/instance_manager/reconciler.py` — `sync_from`
    (the five handler bodies are placeholders in the source; they are modelled
    from the spec, composed in the call order that the source fixes).

Python `Dict`s are embedded as insertion-ordered association lists, resource
quantities (Python floats carrying integral resource amounts) as rationals,
and wall-clock reads (`time.time_ns()`) as an explicit `now : Nat` parameter.
Fallible code (the `AttributeError` reachable in `get_to_terminate`) is
embedded with `Except`.
-/

namespace RayAutoscaler

/-! ## Instance statuses (spec section 4.1, shared by scheduler and reconciler) -/

inductive InstanceStatus where
  | QUEUED
  | REQUESTED
  | ALLOCATED
  | ALLOCATION_FAILED
  | RAY_INSTALLING
  | RAY_RUNNING
  | RAY_INSTALL_FAILED
  | RAY_STOPPING
  | RAY_STOPPED
  | TERMINATING
  | TERMINATED
  | TERMINATION_FAILED
deriving DecidableEq

/-! ## Scheduler data model (`scheduler.py`) -/

structure NodeTypeConfig where
  name : String
  min_worker_nodes : Nat
  max_worker_nodes : Nat
  resources : List (String × ℚ)
  labels : List (String × String)
deriving DecidableEq

structure ResourceRequest where
  resources_bundle : List (String × ℚ)
deriving DecidableEq

structure ResourceRequestByCount where
  request : ResourceRequest
  count : Nat
deriving DecidableEq

structure GangResourceRequest where
  requests : List ResourceRequest
deriving DecidableEq

structure ClusterResourceConstraint where
  min_bundles : List ResourceRequestByCount
deriving DecidableEq

/-- The ray-node part of an `AutoscalerInstance` (`instance.ray_node`). -/
structure RayNodeView where
  ray_node_type_name : String
  total_resources : List (String × ℚ)
  available_resources : List (String × ℚ)
  dynamic_labels : List (String × String)
  idle_duration_ms : Nat
deriving DecidableEq

/-- The instance-manager part of an `AutoscalerInstance` (`instance.im_instance`). -/
structure IMInstanceView where
  instance_id : String
  instance_type : String
  status : InstanceStatus
deriving DecidableEq

structure AutoscalerInstance where
  ray_node : Option RayNodeView
  im_instance : Option IMInstanceView
deriving DecidableEq

structure SchedulingRequest where
  node_type_configs : List (String × NodeTypeConfig)
  max_num_worker_nodes : Option Nat
  resource_requests : List ResourceRequestByCount
  gang_resource_requests : List GangResourceRequest
  cluster_resource_constraints : List ClusterResourceConstraint
  instances : List AutoscalerInstance
deriving DecidableEq

inductive TerminationReason where
  | IDLE_TERMINATE
  | MAX_WORKER_NODES
  | MAX_WORKER_NODES_PER_NODE_TYPE
deriving DecidableEq

structure LaunchRequest where
  instance_type : String
  count : Nat
  id : String
  request_ts_ms : Nat
deriving DecidableEq

structure SchedulingReply where
  to_launch : List LaunchRequest
  to_terminate : List (Option String × Option TerminationReason)
  infeasible_resource_requests : List ResourceRequestByCount
  infeasible_gang_resource_requests : List GangResourceRequest
  infeasible_cluster_resource_constraints : List ClusterResourceConstraint
deriving DecidableEq

inductive SchedulingNodeStatus where
  | TO_LAUNCH
  | PENDING
  | RUNNING
  | TO_TERMINATE
deriving DecidableEq

structure SchedulingNode where
  node_type : String
  sched_requests : List ResourceRequest
  total_resources : List (String × ℚ)
  available_resources : List (String × ℚ)
  labels : List (String × String)
  status : SchedulingNodeStatus
  launch_reason : Option String
  termination_reason : Option TerminationReason
  im_instance_id : Option String
  idle_duration_ms : Nat
deriving DecidableEq

/-- `SchedulingNode.from_node_config`. -/
def SchedulingNode.from_node_config (cfg : NodeTypeConfig) (status : SchedulingNodeStatus)
    (im_instance_id : Option String) : SchedulingNode :=
  { node_type := cfg.name
    sched_requests := []
    total_resources := cfg.resources
    available_resources := cfg.resources
    labels := cfg.labels
    status := status
    launch_reason := none
    termination_reason := none
    im_instance_id := im_instance_id
    idle_duration_ms := 0 }

/-! ## ScheduleContext -/

structure ScheduleContext where
  node_type_configs : List (String × NodeTypeConfig)
  max_num_worker_nodes : Option Nat
  nodes : List SchedulingNode
  node_type_available : List (String × Int)
deriving DecidableEq

/-- `ScheduleContext._compute_available_node_types`: per configured node type,
`max_worker_nodes` minus the number of existing nodes of that type. -/
def computeAvailableNodeTypes (nodes : List SchedulingNode)
    (configs : List (String × NodeTypeConfig)) : List (String × Int) :=
  configs.map (fun p =>
    (p.1, (p.2.max_worker_nodes : Int) -
      (nodes.countP (fun n => decide (n.node_type = p.1)) : Int)))

/-- The `ScheduleContext.__init__` constructor. -/
def mkScheduleContext (nodes : List SchedulingNode)
    (configs : List (String × NodeTypeConfig)) (maxw : Option Nat) : ScheduleContext :=
  { node_type_configs := configs
    max_num_worker_nodes := maxw
    nodes := nodes
    node_type_available := computeAvailableNodeTypes nodes configs }

/-- `ScheduleContext.update`: replace the node list and recompute the
per-type launch budget. -/
def ScheduleContext.update (ctx : ScheduleContext) (new_nodes : List SchedulingNode) :
    ScheduleContext :=
  { ctx with
    nodes := new_nodes
    node_type_available := computeAvailableNodeTypes new_nodes ctx.node_type_configs }

/-- Dictionary lookup in an insertion-ordered association list. -/
def lookupConfig (configs : List (String × NodeTypeConfig)) (t : String) :
    Option NodeTypeConfig :=
  (configs.find? (fun p => decide (p.1 = t))).map Prod.snd

/-- Modelled from the spec: `InstanceUtil.is_ray_running_reachable` lives in
`instance_manager/common.py`, which is not among the provided sources. Per the
state machine of spec section 4.1, `RAY_RUNNING` is reachable exactly from the
statuses that precede the ray node joining the cluster. -/
def isRayRunningReachable : InstanceStatus → Bool
  | .QUEUED => true
  | .REQUESTED => true
  | .ALLOCATED => true
  | .RAY_INSTALLING => true
  | _ => false

/-- `ScheduleContext.from_schedule_request`: build the scheduling nodes from the
request's instances.  An instance with a ray node becomes a `RUNNING` node; an
instance without one but whose instance-manager status can still reach
`RAY_RUNNING` becomes a `PENDING` node cloned from its node-type config (and is
skipped when its config is missing); all other instances are skipped. -/
def ScheduleContext.from_schedule_request (req : SchedulingRequest) : ScheduleContext :=
  let nodes := req.instances.filterMap (fun inst =>
    match inst.ray_node with
    | some rn =>
        some { node_type := rn.ray_node_type_name
               sched_requests := []
               total_resources := rn.total_resources
               available_resources := rn.available_resources
               labels := rn.dynamic_labels
               status := .RUNNING
               launch_reason := none
               termination_reason := none
               im_instance_id := inst.im_instance.map (fun im => im.instance_id)
               idle_duration_ms := rn.idle_duration_ms }
    | none =>
        match inst.im_instance with
        | some im =>
            if isRayRunningReachable im.status then
              match lookupConfig req.node_type_configs im.instance_type with
              | some cfg => some (SchedulingNode.from_node_config cfg .PENDING (some im.instance_id))
              | none => none
            else none
        | none => none)
  mkScheduleContext nodes req.node_type_configs req.max_num_worker_nodes

/-- Ordered multiset of per-type counts, built by a left fold that inserts a new
key at the end and bumps an existing one in place (the iteration order of a
Python `defaultdict`). -/
def upsertCount (acc : List (String × Nat)) (t : String) : List (String × Nat) :=
  match acc with
  | [] => [(t, 1)]
  | p :: rest => if p.1 = t then (p.1, p.2 + 1) :: rest else p :: upsertCount rest t

/-- The `launch_by_type` accumulation inside `ScheduleContext.get_to_launch`. -/
def launchByType (nodes : List SchedulingNode) : List (String × Nat) :=
  nodes.foldl (fun acc n => if n.status = .TO_LAUNCH then upsertCount acc n.node_type else acc) []

/-- `ScheduleContext.get_to_launch`.  The source stamps each `LaunchRequest` with
`time.time_ns()`; the clock read is the explicit parameter `now`. -/
def ScheduleContext.get_to_launch (ctx : ScheduleContext) (now : Nat) : List LaunchRequest :=
  (launchByType ctx.nodes).map (fun p =>
    { instance_type := p.1
      count := p.2
      id := toString now
      request_ts_ms := now / 1000 })

/-- `ScheduleContext.get_to_terminate`.  The source's dict comprehension reads
`node.autoscaling_instance` for every `TO_TERMINATE` node, an attribute the
`SchedulingNode` dataclass does not define, so evaluating it on any such node
raises `AttributeError`; with no such node the comprehension is empty. -/
def ScheduleContext.get_to_terminate (ctx : ScheduleContext) :
    Except String (List (Option String × Option TerminationReason)) :=
  if ctx.nodes.any (fun n => decide (n.status = .TO_TERMINATE)) then
    Except.error "AttributeError: SchedulingNode object has no attribute autoscaling_instance"
  else
    Except.ok []

/-- Modelled from the spec: `resource_requests_by_count` (`ray.autoscaler.v2.utils`,
not among the provided sources) groups a list of resource requests into
(request, count) pairs. -/
def upsertRequest (acc : List ResourceRequestByCount) (r : ResourceRequest) :
    List ResourceRequestByCount :=
  match acc with
  | [] => [{ request := r, count := 1 }]
  | rc :: rest =>
      if rc.request = r then { request := rc.request, count := rc.count + 1 } :: rest
      else rc :: upsertRequest rest r

def resource_requests_by_count (reqs : List ResourceRequest) : List ResourceRequestByCount :=
  reqs.foldl upsertRequest []

/-! ## ResourceDemandScheduler (the code path of `schedule`) -/

/-- `ResourceDemandScheduler._enforce_min_workers`: for each configured node type
whose current count is below its configured minimum, prepend enough `TO_LAUNCH`
nodes cloned from the type's config to make up the difference.  The per-type
counts are taken from the context once, before any node is added. -/
def minNewNodesList (nodes : List SchedulingNode) :
    List (String × NodeTypeConfig) → List SchedulingNode
  | [] => []
  | p :: rest =>
      (if nodes.countP (fun n => decide (n.node_type = p.1)) < p.2.min_worker_nodes then
        List.replicate
          (p.2.min_worker_nodes - nodes.countP (fun n => decide (n.node_type = p.1)))
          (SchedulingNode.from_node_config p.2 .TO_LAUNCH none)
      else []) ++ minNewNodesList nodes rest

def minNewNodes (ctx : ScheduleContext) : List SchedulingNode :=
  minNewNodesList ctx.nodes ctx.node_type_configs

def enforceMinWorkers (ctx : ScheduleContext) : ScheduleContext :=
  ctx.update (minNewNodes ctx ++ ctx.nodes)

/-- The context after the phases of `ResourceDemandScheduler.schedule` have run.
In the source, phase 1 (`_enforce_min_workers`) is the only phase that touches
the context: `_enforce_resource_constraints`, `_sched_gang_resource_requests`
and `_sched_resource_requests` are placeholders that return empty lists. -/
def ResourceDemandScheduler.finalCtx (request : SchedulingRequest) : ScheduleContext :=
  enforceMinWorkers (ScheduleContext.from_schedule_request request)

/-- `ResourceDemandScheduler.schedule`.  `now` is the wall-clock reading used by
`get_to_launch`; the `Except` layer carries the `AttributeError` that
`get_to_terminate` would raise on a `TO_TERMINATE` node. -/
def ResourceDemandScheduler.schedule (request : SchedulingRequest) (now : Nat) :
    Except String SchedulingReply :=
  let ctx := ResourceDemandScheduler.finalCtx request
  match ctx.get_to_terminate with
  | Except.error e => Except.error e
  | Except.ok term =>
      Except.ok
        { to_launch := ctx.get_to_launch now
          to_terminate := term
          infeasible_resource_requests := resource_requests_by_count []
          infeasible_gang_resource_requests := []
          infeasible_cluster_resource_constraints := [] }

/-- The (type, count) shape of a launch plan, forgetting the synthetic
time-based id and timestamp fields. -/
def launchShape (l : List LaunchRequest) : List (String × Nat) :=
  l.map (fun r => (r.instance_type, r.count))

instance {ε α : Type} [DecidableEq ε] [DecidableEq α] : DecidableEq (Except ε α)
  | .error e, .error f => decidable_of_iff (e = f) (by simp)
  | .error _, .ok _ => isFalse (by simp)
  | .ok _, .error _ => isFalse (by simp)
  | .ok a, .ok b => decidable_of_iff (a = b) (by simp)

/-! ## Spec-modelled scheduling phases 3 and 4

The source bodies of `SchedulingNode.try_schedule`, `SchedulingNode._compute_score`,
`ResourceDemandScheduler._sched_gang_resource_requests` and
`ResourceDemandScheduler._sched_resource_requests` are placeholders (`pass` or
`return []`); spec section 9 declares section 4.2 the authoritative contract for
them.  The definitions below carry that contract. -/

/-- Exact rational subtraction, addition, division and minimum, written out on
numerators and denominators (`Rat.sub` and friends are `@[irreducible]`, which
would keep concrete scenario states from evaluating). -/
def qsub (a b : ℚ) : ℚ := mkRat (a.num * (b.den : Int) - b.num * (a.den : Int)) (a.den * b.den)

def qadd (a b : ℚ) : ℚ := mkRat (a.num * (b.den : Int) + b.num * (a.den : Int)) (a.den * b.den)

def qdiv (a b : ℚ) : ℚ :=
  if 0 < b.num then mkRat (a.num * (b.den : Int)) (a.den * b.num.toNat)
  else if b.num < 0 then mkRat (-(a.num * (b.den : Int))) (a.den * (-b.num).toNat)
  else 0

def qmin (a b : ℚ) : ℚ := if Rat.blt a b then a else b

def qsum (l : List ℚ) : ℚ := l.foldl qadd 0

/-- Lookup in a resource map, missing resources count as zero. -/
def lookupQ (m : List (String × ℚ)) (k : String) : ℚ :=
  ((m.find? (fun p => decide (p.1 = k))).map Prod.snd).getD 0

/-- In-place dictionary write, appending a fresh key at the end. -/
def setQ (m : List (String × ℚ)) (k : String) (v : ℚ) : List (String × ℚ) :=
  match m with
  | [] => [(k, v)]
  | p :: rest => if p.1 = k then (k, v) :: rest else p :: setQ rest k v

def requestFits (avail : List (String × ℚ)) (r : ResourceRequest) : Bool :=
  r.resources_bundle.all (fun p => decide (p.2 ≤ lookupQ avail p.1))

def deductRequest (avail : List (String × ℚ)) (r : ResourceRequest) :
    List (String × ℚ) :=
  r.resources_bundle.foldl (fun a p => setQ a p.1 (qsub (lookupQ a p.1) p.2)) avail

/-- Modelled from the spec: the descending resource-footprint placement order
(requests demanding more distinct resource types, then larger total quantities,
first). -/
def requestKey (r : ResourceRequest) : Nat × ℚ :=
  ((r.resources_bundle.map Prod.fst).dedup.length, qsum (r.resources_bundle.map Prod.snd))

def keyLT (a b : Nat × ℚ) : Bool :=
  decide (a.1 < b.1) || (decide (a.1 = b.1) && decide (a.2 < b.2))

def insertByKeyDesc (r : ResourceRequest) : List ResourceRequest → List ResourceRequest
  | [] => [r]
  | x :: xs =>
      if keyLT (requestKey x) (requestKey r) then r :: x :: xs
      else x :: insertByKeyDesc r xs

/-- Stable insertion sort, descending by `requestKey`. -/
def sortRequestsDesc (l : List ResourceRequest) : List ResourceRequest :=
  l.foldr insertByKeyDesc []

/-- Modelled from the spec: `SchedulingNode.try_schedule` (its body is `pass` in
the source).  Attempts the requests one by one in placement order with no
backtracking: a fitting request deducts its resource vector from the node's
available resources and is appended to the node's assigned list, a request that
does not fit is left in the remainder. -/
def SchedulingNode.trySchedule (node : SchedulingNode) (reqs : List ResourceRequest) :
    SchedulingNode × List ResourceRequest :=
  (sortRequestsDesc reqs).foldl (fun acc r =>
    if requestFits acc.1.available_resources r then
      ({ acc.1 with
          available_resources := deductRequest acc.1.available_resources r
          sched_requests := acc.1.sched_requests ++ [r] }, acc.2)
    else (acc.1, acc.2 ++ [r])) (node, [])

/-- Utilization score: GPU-waste flag, count of scheduled resource types, minimum
and mean post-placement utilization.  Compared lexicographically, higher wins. -/
abbrev Score := Nat × Nat × ℚ × ℚ

/-- Modelled from the spec: `SchedulingNode._compute_score` (its body is `pass`
in the source), evaluated on the post-placement node and the requests assigned
during the current `try_schedule` call. -/
def computeScore (node : SchedulingNode) (newReqs : List ResourceRequest) : Score :=
  let isGpuNode := decide (0 < lookupQ node.total_resources "GPU")
  let hasGpuReq := newReqs.any (fun r => decide (0 < lookupQ r.resources_bundle "GPU"))
  let flag : Nat := if isGpuNode && !hasGpuReq then 0 else 1
  let numTypes := ((newReqs.map (fun r => r.resources_bundle.map Prod.fst)).flatten).dedup.length
  let utils := node.total_resources.map (fun p =>
    if p.2 = 0 then 0 else qdiv (qsub p.2 (lookupQ node.available_resources p.1)) p.2)
  let minU := match utils with
    | [] => (0 : ℚ)
    | x :: xs => xs.foldl qmin x
  let avgU := if utils.length = 0 then (0 : ℚ) else qdiv (qsum utils) (utils.length : ℚ)
  (flag, numTypes, minU, avgU)

def scoreLT (a b : Score) : Bool :=
  decide (a.1 < b.1) ||
    (decide (a.1 = b.1) && (decide (a.2.1 < b.2.1) ||
      (decide (a.2.1 = b.2.1) && (decide (a.2.2.1 < b.2.2.1) ||
        (decide (a.2.2.1 = b.2.2.1) && decide (a.2.2.2 < b.2.2.2))))))

/-- Remaining launch budget of a node type in the context. -/
def lookupAvailable (ctx : ScheduleContext) (t : String) : Int :=
  ((ctx.node_type_available.find? (fun p => decide (p.1 = t))).map Prod.snd).getD 0

/-- Candidate placements for one request: every existing node the request fits
on, then one freshly materialized `TO_LAUNCH` node per node type with remaining
launch budget that the request fits on. -/
def candidatesFor (ctx : ScheduleContext) (r : ResourceRequest) :
    List ((Nat ⊕ String) × SchedulingNode × Score) :=
  (ctx.nodes.enum.filterMap (fun p =>
    let res := p.2.trySchedule [r]
    if res.2 = [] then some (Sum.inl p.1, res.1, computeScore res.1 [r]) else none))
  ++ (ctx.node_type_configs.filterMap (fun p =>
    if 0 < lookupAvailable ctx p.1 then
      let n := SchedulingNode.from_node_config p.2 .TO_LAUNCH none
      let res := n.trySchedule [r]
      if res.2 = [] then some (Sum.inr p.1, res.1, computeScore res.1 [r]) else none
    else none))

/-- Highest-scoring candidate; ties keep the earliest (existing nodes before new
ones, then insertion order). -/
def pickBest (l : List ((Nat ⊕ String) × SchedulingNode × Score)) :
    Option ((Nat ⊕ String) × SchedulingNode × Score) :=
  l.foldl (fun best c =>
    match best with
    | none => some c
    | some b => if scoreLT b.2.2 c.2.2 then some c else some b) none

/-- Modelled from the spec: place one resource request on the best-fit candidate
node, committing the placement into the context (an existing node is replaced in
place, a fresh node is appended and the budget map recomputed). -/
def tryPlaceOne (ctx : ScheduleContext) (r : ResourceRequest) : Option ScheduleContext :=
  match pickBest (candidatesFor ctx r) with
  | none => none
  | some (Sum.inl i, n, _) => some (ctx.update (ctx.nodes.set i n))
  | some (Sum.inr _, n, _) => some (ctx.update (ctx.nodes ++ [n]))

def expandRequests (l : List ResourceRequestByCount) : List ResourceRequest :=
  (l.map (fun rc => List.replicate rc.count rc.request)).flatten

/-- One-by-one placement of already-ordered requests; a request that fits no
candidate is collected as infeasible. -/
def schedResourceRequestsGo (ctx : ScheduleContext) :
    List ResourceRequest → ScheduleContext × List ResourceRequest
  | [] => (ctx, [])
  | r :: rs =>
      match tryPlaceOne ctx r with
      | some c2 => schedResourceRequestsGo c2 rs
      | none =>
          let res := schedResourceRequestsGo ctx rs
          (res.1, r :: res.2)

/-- Modelled from the spec: `_sched_resource_requests` (the source returns `[]`).
Greedy, one request at a time in descending footprint order; a request that fits
no candidate is reported infeasible. -/
def schedResourceRequests (ctx : ScheduleContext) (reqs : List ResourceRequestByCount) :
    ScheduleContext × List ResourceRequest :=
  schedResourceRequestsGo ctx (sortRequestsDesc (expandRequests reqs))

/-- Modelled from the spec: attempt a whole gang against a working copy of the
context; `none` means some request of the gang fit nowhere. -/
def tryPlaceGang (ctx : ScheduleContext) (g : GangResourceRequest) :
    Option ScheduleContext :=
  (sortRequestsDesc g.requests).foldlM (fun c r => tryPlaceOne c r) ctx

/-- Modelled from the spec: `_sched_gang_resource_requests` (the source returns
`[]`).  Atomic per gang: either every request of the gang is committed, or the
context is left exactly as it was and the gang is reported infeasible. -/
def schedGangResourceRequests (ctx : ScheduleContext) :
    List GangResourceRequest → ScheduleContext × List GangResourceRequest
  | [] => (ctx, [])
  | g :: gs =>
      match tryPlaceGang ctx g with
      | some c2 => schedGangResourceRequests c2 gs
      | none =>
          let res := schedGangResourceRequests ctx gs
          (res.1, g :: res.2)

/-- The scheduler pipeline with the placeholder phases 3 and 4 replaced by the
spec's contract (phase 2, cluster constraints, stays feasibility-only and is
exercised by no claim). -/
def SpecScheduler.finalState (request : SchedulingRequest) :
    ScheduleContext × List ResourceRequest × List GangResourceRequest :=
  let c1 := enforceMinWorkers (ScheduleContext.from_schedule_request request)
  let g := schedGangResourceRequests c1 request.gang_resource_requests
  let r := schedResourceRequests g.1 request.resource_requests
  (r.1, r.2, g.2)

def SpecScheduler.schedule (request : SchedulingRequest) (now : Nat) :
    Except String SchedulingReply :=
  let st := SpecScheduler.finalState request
  match st.1.get_to_terminate with
  | Except.error e => Except.error e
  | Except.ok term =>
      Except.ok
        { to_launch := st.1.get_to_launch now
          to_terminate := term
          infeasible_resource_requests := resource_requests_by_count st.2.1
          infeasible_gang_resource_requests := st.2.2
          infeasible_cluster_resource_constraints := [] }

/-! ## Reconciler data model (`reconciler.py` and spec section 6)

Every handler body of `Reconciler.sync_from` is `pass` in the source; the
handlers are modelled from spec section 4.1 below and composed in the call
order that `sync_from` itself fixes: `_handle_cloud_instance_allocation`
(rules 1 and 2), `_handle_cloud_instance_terminated` (rules 4 and 5),
`_handle_ray_running` (rule 3), `_handle_ray_stopped` (rule 6),
`_handle_ray_install_failed` (rule 7). -/

/-- An instance-store record (spec section 3). -/
structure IMInstance where
  id : String
  instance_type : String
  status : InstanceStatus
  launch_request_id : Option String
  cloud_instance_id : Option String
deriving DecidableEq

structure CloudInstance where
  id : String
  instance_type : String
deriving DecidableEq

inductive RayNodeStatus where
  | RUNNING
  | DEAD
deriving DecidableEq

/-- A compute-runtime node state: runtime node id, associated cloud-instance id,
and whether the node has joined (`RUNNING`) or left (`DEAD`) the cluster. -/
structure NodeState where
  node_id : String
  instance_id : String
  status : RayNodeStatus
deriving DecidableEq

/-- A cloud-provider error, either a launch failure (correlated by launch
request id) or a termination failure (correlated by cloud instance id), as in
`node_provider.LaunchNodeError` / `TerminateNodeError`. -/
inductive CloudInstanceProviderError where
  | launch (request_id : String) (node_type : String)
  | terminate (request_id : String) (cloud_instance_id : String)
deriving DecidableEq

structure RayInstallError where
  im_instance_id : String
deriving DecidableEq

/-- The external snapshot handed to one `sync_from` call. -/
structure SyncInputs where
  ray_nodes : List NodeState
  non_terminated_cloud_instances : List CloudInstance
  cloud_provider_errors : List CloudInstanceProviderError
  ray_install_errors : List RayInstallError
deriving DecidableEq

/-- Cloud-instance ids already associated with some instance of the store. -/
def refsOf (s : List IMInstance) : List String :=
  s.filterMap (fun i => i.cloud_instance_id)

/-- First non-terminated cloud instance of the given type not yet assigned. -/
def firstUnassigned (pool : List CloudInstance) (assigned : List String) (t : String) :
    Option CloudInstance :=
  pool.find? (fun c => decide (c.instance_type = t) && !(assigned.contains c.id))

def launchErrMatch (errs : List CloudInstanceProviderError) (r : String) : Bool :=
  errs.any (fun e => match e with
    | .launch rid _ => decide (rid = r)
    | .terminate _ _ => false)

def terminateErrMatch (errs : List CloudInstanceProviderError) (cid : String) : Bool :=
  errs.any (fun e => match e with
    | .launch _ _ => false
    | .terminate _ c => decide (c = cid))

/-- Modelled from the spec: one instance's step of
`Reconciler._handle_cloud_instance_allocation` (its body is `pass` in the
source).  Rules 1 and 2 of spec section 4.1, rule 1 first: a `QUEUED` or
`REQUESTED` instance carrying a launch-request id is assigned the first
unassigned non-terminated cloud instance of its machine type and becomes
`ALLOCATED`; failing that, a `REQUESTED` instance whose launch-request id has a
reported provider launch error becomes `ALLOCATION_FAILED`.  The boolean records
whether this call already transitioned the instance; the returned list is the
updated assigned-id set. -/
def allocStep (pool : List CloudInstance) (errs : List CloudInstanceProviderError)
    (assigned : List String) (i : IMInstance) : (IMInstance × Bool) × List String :=
  match i.launch_request_id with
  | some r =>
      if i.status = .QUEUED ∨ i.status = .REQUESTED then
        match firstUnassigned pool assigned i.instance_type with
        | some c =>
            (({ i with status := .ALLOCATED, cloud_instance_id := some c.id }, true),
              c.id :: assigned)
        | none =>
            if i.status = .REQUESTED ∧ launchErrMatch errs r then
              (({ i with status := .ALLOCATION_FAILED }, true), assigned)
            else ((i, false), assigned)
      else ((i, false), assigned)
  | none => ((i, false), assigned)

def allocGo (pool : List CloudInstance) (errs : List CloudInstanceProviderError) :
    List String → List IMInstance → List (IMInstance × Bool)
  | _, [] => []
  | assigned, i :: rest =>
      let st := allocStep pool errs assigned i
      st.1 :: allocGo pool errs st.2 rest

/-- The assigned-id set after the allocation handler has swept the given
instances. -/
def assignedAfter (pool : List CloudInstance) (errs : List CloudInstanceProviderError) :
    List String → List IMInstance → List String
  | assigned, [] => assigned
  | assigned, i :: rest => assignedAfter pool errs (allocStep pool errs assigned i).2 rest

/-- Modelled from the spec: one instance's step of
`Reconciler._handle_cloud_instance_terminated` (its body is `pass` in the
source).  Rules 4 and 5 of spec section 4.1, rule 4 first: an instance whose
cloud instance is absent from the non-terminated snapshot becomes `TERMINATED`;
otherwise a `TERMINATING` instance with a reported provider termination error
for its cloud instance becomes `TERMINATION_FAILED`.  Instances already
transitioned in this call are skipped. -/
def termStep (pool : List CloudInstance) (errs : List CloudInstanceProviderError)
    (p : IMInstance × Bool) : IMInstance × Bool :=
  if p.2 then p
  else match p.1.cloud_instance_id with
    | some c =>
        if ¬ (pool.any (fun ci => decide (ci.id = c))) ∧ p.1.status ≠ .TERMINATED then
          ({ p.1 with status := .TERMINATED }, true)
        else if p.1.status = .TERMINATING ∧ terminateErrMatch errs c then
          ({ p.1 with status := .TERMINATION_FAILED }, true)
        else p
    | none => p

/-- Modelled from the spec: one instance's step of `Reconciler._handle_ray_running`
(its body is `pass` in the source).  Rule 3 of spec section 4.1: an instance
whose cloud instance has a runtime node reporting joined becomes `RAY_RUNNING`.
Instances already transitioned in this call are skipped. -/
def rayRunningStep (nodes : List NodeState) (p : IMInstance × Bool) : IMInstance × Bool :=
  if p.2 then p
  else match p.1.cloud_instance_id with
    | some c =>
        if nodes.any (fun n => decide (n.instance_id = c) && decide (n.status = RayNodeStatus.RUNNING))
            ∧ p.1.status ≠ .RAY_RUNNING then
          ({ p.1 with status := .RAY_RUNNING }, true)
        else p
    | none => p

/-- Modelled from the spec: one instance's step of `Reconciler._handle_ray_stopped`
(its body is `pass` in the source).  Rule 6 of spec section 4.1: an instance
whose runtime node reports left or stopped becomes `RAY_STOPPED`.  Instances
already transitioned in this call are skipped. -/
def rayStoppedStep (nodes : List NodeState) (p : IMInstance × Bool) : IMInstance × Bool :=
  if p.2 then p
  else match p.1.cloud_instance_id with
    | some c =>
        if nodes.any (fun n => decide (n.instance_id = c) && decide (n.status = RayNodeStatus.DEAD))
            ∧ p.1.status ≠ .RAY_STOPPED then
          ({ p.1 with status := .RAY_STOPPED }, true)
        else p
    | none => p

/-- Modelled from the spec: one instance's step of
`Reconciler._handle_ray_install_failed` (its body is `pass` in the source).
Rule 7 of spec section 4.1: an instance with a reported install error becomes
`RAY_INSTALL_FAILED`.  Instances already transitioned in this call are skipped. -/
def installFailedStep (errs : List RayInstallError) (p : IMInstance × Bool) : IMInstance × Bool :=
  if p.2 then p
  else if errs.any (fun e => decide (e.im_instance_id = p.1.id))
      ∧ p.1.status ≠ .RAY_INSTALL_FAILED then
    ({ p.1 with status := .RAY_INSTALL_FAILED }, true)
  else p

def syncStage1 (s : List IMInstance) (inp : SyncInputs) : List (IMInstance × Bool) :=
  allocGo inp.non_terminated_cloud_instances inp.cloud_provider_errors (refsOf s) s

def syncStage2 (s : List IMInstance) (inp : SyncInputs) : List (IMInstance × Bool) :=
  (syncStage1 s inp).map (termStep inp.non_terminated_cloud_instances inp.cloud_provider_errors)

def syncStage3 (s : List IMInstance) (inp : SyncInputs) : List (IMInstance × Bool) :=
  (syncStage2 s inp).map (rayRunningStep inp.ray_nodes)

def syncStage4 (s : List IMInstance) (inp : SyncInputs) : List (IMInstance × Bool) :=
  (syncStage3 s inp).map (rayStoppedStep inp.ray_nodes)

def syncStage5 (s : List IMInstance) (inp : SyncInputs) : List (IMInstance × Bool) :=
  (syncStage4 s inp).map (installFailedStep inp.ray_install_errors)

/-- `Reconciler.sync_from`: the passive pass.  Handlers modelled from spec
section 4.1, composed in the call order fixed by the source (allocation,
termination, ray running, ray stopped, install failed), each applying at most
one transition per instance per call. -/
def Reconciler.sync_from (s : List IMInstance) (inp : SyncInputs) : List IMInstance :=
  (syncStage5 s inp).map Prod.fst

/-- The per-stage views of one instance slot during a `sync_from` call: its
record before the call and after each of the five handler passes. -/
def recordTrace (s : List IMInstance) (inp : SyncInputs) (k : Nat) : List (Option IMInstance) :=
  [((s.map (fun i => (i, false)))[k]?).map Prod.fst,
   ((syncStage1 s inp)[k]?).map Prod.fst,
   ((syncStage2 s inp)[k]?).map Prod.fst,
   ((syncStage3 s inp)[k]?).map Prod.fst,
   ((syncStage4 s inp)[k]?).map Prod.fst,
   ((syncStage5 s inp)[k]?).map Prod.fst]

/-- Number of positions at which consecutive entries of the trace differ. -/
def changesCount (l : List (Option IMInstance)) : Nat :=
  (l.zip l.tail).countP (fun ab => decide (ab.1 ≠ ab.2))

/-- The fields of an instance record other than status and cloud-instance id. -/
def immutView (i : IMInstance) : String × String × Option String :=
  (i.id, i.instance_type, i.launch_request_id)

/-- The store invariant of spec section 3: a cloud-instance id is present only
from `ALLOCATED` onwards, so `QUEUED` and `REQUESTED` records carry none. -/
abbrev storeWF (s : List IMInstance) : Prop :=
  ∀ i ∈ s, (i.status = .QUEUED ∨ i.status = .REQUESTED) → i.cloud_instance_id = none

/-! ## Statement helpers -/

/-- Number of nodes of a machine type built from the request's instances
(the existing nodes of a scheduling pass). -/
def existingCount (req : SchedulingRequest) (t : String) : Nat :=
  (ScheduleContext.from_schedule_request req).nodes.countP (fun n => decide (n.node_type = t))

/-- Number of nodes of a machine type in a context. -/
def countTypeCtx (ctx : ScheduleContext) (t : String) : Nat :=
  ctx.nodes.countP (fun n => decide (n.node_type = t))

/-- Number of `TO_LAUNCH` nodes of a machine type in a context. -/
def toLaunchCount (ctx : ScheduleContext) (t : String) : Nat :=
  ctx.nodes.countP (fun n => decide (n.node_type = t) && decide (n.status = .TO_LAUNCH))

/-- Total count a launch plan requests for a machine type. -/
def launchedCount (l : List LaunchRequest) (t : String) : Nat :=
  (l.map (fun r => if r.instance_type = t then r.count else 0)).sum

/-- Total count an ordered count list holds for a key. -/
def sumFor (l : List (String × Nat)) (t : String) : Nat :=
  (l.map (fun p => if p.1 = t then p.2 else 0)).sum

/-- Well-formedness of the request's node-type config dictionary: unique keys
(a Python dict invariant) each naming their own config. -/
abbrev wellFormedConfigs (req : SchedulingRequest) : Prop :=
  (req.node_type_configs.map Prod.fst).Nodup ∧
    ∀ p ∈ req.node_type_configs, p.2.name = p.1

/-- The reply `ResourceDemandScheduler.schedule` produces (the `AttributeError`
branch of `get_to_terminate` is never taken, see the C10 theorem). -/
def ResourceDemandScheduler.replyOf (request : SchedulingRequest) (now : Nat) :
    SchedulingReply :=
  { to_launch := (ResourceDemandScheduler.finalCtx request).get_to_launch now
    to_terminate := []
    infeasible_resource_requests := []
    infeasible_gang_resource_requests := []
    infeasible_cluster_resource_constraints := [] }

/-! ## Concrete scenarios -/

/-- Spec scenario A: machine type `m1` with min 2, max 4, no existing nodes, no
demand. -/
def scenarioA : SchedulingRequest :=
  { node_type_configs := [("m1",
      { name := "m1", min_worker_nodes := 2, max_worker_nodes := 4,
        resources := [("CPU", 1)], labels := [] })]
    max_num_worker_nodes := none
    resource_requests := []
    gang_resource_requests := []
    cluster_resource_constraints := []
    instances := [] }

/-- An `m1` ray node with the given total and available CPU. -/
def mkRayInstance (total avail : ℚ) : AutoscalerInstance :=
  { ray_node := some
      { ray_node_type_name := "m1"
        total_resources := [("CPU", total)]
        available_resources := [("CPU", avail)]
        dynamic_labels := []
        idle_duration_ms := 0 }
    im_instance := none }

/-- Counterexample request for capacity conservation: `m1` capped at one worker
but two `m1` nodes already running, nothing to launch. -/
def c4request : SchedulingRequest :=
  { node_type_configs := [("m1",
      { name := "m1", min_worker_nodes := 0, max_worker_nodes := 1,
        resources := [("CPU", 4)], labels := [] })]
    max_num_worker_nodes := none
    resource_requests := []
    gang_resource_requests := []
    cluster_resource_constraints := []
    instances := [mkRayInstance 4 4, mkRayInstance 4 4] }

/-- Spec scenario B: one `RUNNING` `m1` node with total and available CPU 4, and
one resource request for CPU 2. -/
def scenarioB : SchedulingRequest :=
  { node_type_configs := [("m1",
      { name := "m1", min_worker_nodes := 0, max_worker_nodes := 1,
        resources := [("CPU", 4)], labels := [] })]
    max_num_worker_nodes := none
    resource_requests := [{ request := { resources_bundle := [("CPU", 2)] }, count := 1 }]
    gang_resource_requests := []
    cluster_resource_constraints := []
    instances := [mkRayInstance 4 4] }

/-- Spec scenario C's gang: one bundle demanding GPU 1 and one demanding CPU 8. -/
def gangC : GangResourceRequest :=
  { requests := [{ resources_bundle := [("GPU", 1)] },
                 { resources_bundle := [("CPU", 8)] }] }

/-- Spec scenario C: a CPU-only cluster (one running `m1` node with CPU 8, no
launch budget anywhere, the GPU type's max is 0) and the gang `gangC`. -/
def scenarioC : SchedulingRequest :=
  { node_type_configs := [
      ("m1", { name := "m1", min_worker_nodes := 0, max_worker_nodes := 1,
               resources := [("CPU", 8)], labels := [] }),
      ("g1", { name := "g1", min_worker_nodes := 0, max_worker_nodes := 0,
               resources := [("GPU", 1), ("CPU", 2)], labels := [] })]
    max_num_worker_nodes := none
    resource_requests := []
    gang_resource_requests := [gangC]
    cluster_resource_constraints := []
    instances := [mkRayInstance 8 8] }

/-- Store of the idempotence counterexample: two queued instances with pending
launch requests. -/
def c2store : List IMInstance :=
  [{ id := "i1", instance_type := "m1", status := .QUEUED,
     launch_request_id := some "r1", cloud_instance_id := none },
   { id := "i2", instance_type := "m1", status := .QUEUED,
     launch_request_id := some "r2", cloud_instance_id := none }]

/-- Snapshot of the idempotence counterexample: two unassigned `m1` cloud
instances, a ray node already joined on `c1`, and an install error for `i2`. -/
def c2inp : SyncInputs :=
  { ray_nodes := [{ node_id := "n1", instance_id := "c1", status := .RUNNING }]
    non_terminated_cloud_instances :=
      [{ id := "c1", instance_type := "m1" }, { id := "c2", instance_type := "m1" }]
    cloud_provider_errors := []
    ray_install_errors := [{ im_instance_id := "i2" }] }

/-- Store of the rule-order counterexample: one `ALLOCATED` instance on cloud
instance `c1`. -/
def c6store : List IMInstance :=
  [{ id := "i1", instance_type := "m1", status := .ALLOCATED,
     launch_request_id := none, cloud_instance_id := some "c1" }]

/-- Snapshot of the rule-order counterexample: `c1` is gone from the provider
but a ray node on `c1` still reports joined. -/
def c6inp : SyncInputs :=
  { ray_nodes := [{ node_id := "n1", instance_id := "c1", status := .RUNNING }]
    non_terminated_cloud_instances := []
    cloud_provider_errors := []
    ray_install_errors := [] }

/-- Store of the scenario D counterexample: two `REQUESTED` instances with
distinct launch requests. -/
def c9store : List IMInstance :=
  [{ id := "i1", instance_type := "m1", status := .REQUESTED,
     launch_request_id := some "r1", cloud_instance_id := none },
   { id := "i2", instance_type := "m1", status := .REQUESTED,
     launch_request_id := some "r2", cloud_instance_id := none }]

/-- Snapshot of the scenario D counterexample: launch errors for both requests
while an unassigned `m1` cloud instance is also available. -/
def c9inp : SyncInputs :=
  { ray_nodes := []
    non_terminated_cloud_instances := [{ id := "c1", instance_type := "m1" }]
    cloud_provider_errors :=
      [.launch "r1" "m1", .launch "r2" "m1"]
    ray_install_errors := [] }

/-! ## Scheduler helper lemmas -/

lemma from_schedule_request_status {req : SchedulingRequest} {n : SchedulingNode}
    (h : n ∈ (ScheduleContext.from_schedule_request req).nodes) :
    n.status = .RUNNING ∨ n.status = .PENDING := by
  simp only [ScheduleContext.from_schedule_request, mkScheduleContext,
    List.mem_filterMap] at h
  obtain ⟨inst, -, hf⟩ := h
  split at hf
  · obtain rfl := Option.some.inj hf
    exact Or.inl rfl
  · split at hf
    · split at hf
      · split at hf
        · obtain rfl := Option.some.inj hf
          exact Or.inr rfl
        · exact absurd hf (by simp)
      · exact absurd hf (by simp)
    · exact absurd hf (by simp)

lemma mem_minNewNodesList {nodes : List SchedulingNode} {n : SchedulingNode} :
    ∀ {cfgs : List (String × NodeTypeConfig)},
      n ∈ minNewNodesList nodes cfgs → n.status = .TO_LAUNCH := by
  intro cfgs h
  induction cfgs with
  | nil => exact absurd h (by simp [minNewNodesList])
  | cons p rest ih =>
      rw [minNewNodesList, List.mem_append] at h
      rcases h with h | h
      · split at h
        · obtain rfl := List.eq_of_mem_replicate h
          rfl
        · exact absurd h (by simp)
      · exact ih h

lemma mem_minNewNodes {ctx : ScheduleContext} {n : SchedulingNode}
    (h : n ∈ minNewNodes ctx) :
    n.status = .TO_LAUNCH :=
  mem_minNewNodesList h

lemma enforceMinWorkers_nodes (ctx : ScheduleContext) :
    (enforceMinWorkers ctx).nodes = minNewNodes ctx ++ ctx.nodes := rfl

lemma finalCtx_status {req : SchedulingRequest} {n : SchedulingNode}
    (h : n ∈ (ResourceDemandScheduler.finalCtx req).nodes) :
    n.status ≠ .TO_TERMINATE := by
  rw [ResourceDemandScheduler.finalCtx, enforceMinWorkers_nodes,
    List.mem_append] at h
  rcases h with h | h
  · rw [mem_minNewNodes h]; intro hc; cases hc
  · rcases from_schedule_request_status h with h' | h' <;> rw [h'] <;>
      intro hc <;> cases hc

lemma get_to_terminate_ok {ctx : ScheduleContext}
    (h : ∀ n ∈ ctx.nodes, n.status ≠ .TO_TERMINATE) :
    ctx.get_to_terminate = Except.ok [] := by
  rw [ScheduleContext.get_to_terminate, if_neg]
  simp only [List.any_eq_true, decide_eq_true_eq, not_exists]
  intro n
  rintro ⟨hn, hs⟩
  exact h n hn hs

lemma schedule_eq_replyOf (req : SchedulingRequest) (now : Nat) :
    ResourceDemandScheduler.schedule req now =
      Except.ok (ResourceDemandScheduler.replyOf req now) := by
  rw [ResourceDemandScheduler.schedule,
    get_to_terminate_ok (fun n hn => finalCtx_status hn)]
  rfl

lemma launchShape_get_to_launch (ctx : ScheduleContext) (now : Nat) :
    launchShape (ctx.get_to_launch now) = launchByType ctx.nodes := by
  simp only [launchShape, ScheduleContext.get_to_launch, List.map_map]
  exact List.map_id _

/-! ## Claims C10, C7 and C1 -/

/-- C10: during every `schedule` call no `SchedulingNode` in the context has
status `TO_TERMINATE` (the initial nodes are `RUNNING` or `PENDING`, the phase-1
nodes are `TO_LAUNCH`), hence `get_to_terminate` returns the empty map rather
than evaluating the undefined `autoscaling_instance` attribute, and the reply's
`to_terminate` is empty for every request. -/
theorem C10_to_terminate_unreachable (req : SchedulingRequest) (now : Nat) :
    (∀ n ∈ (ScheduleContext.from_schedule_request req).nodes, n.status ≠ .TO_TERMINATE) ∧
    (∀ n ∈ (ResourceDemandScheduler.finalCtx req).nodes, n.status ≠ .TO_TERMINATE) ∧
    (ResourceDemandScheduler.finalCtx req).get_to_terminate = Except.ok [] ∧
    ResourceDemandScheduler.schedule req now =
      Except.ok (ResourceDemandScheduler.replyOf req now) ∧
    (ResourceDemandScheduler.replyOf req now).to_terminate = [] := by
  refine ⟨?_, fun n hn => finalCtx_status hn,
    get_to_terminate_ok (fun n hn => finalCtx_status hn),
    schedule_eq_replyOf req now, rfl⟩
  intro n hn
  rcases from_schedule_request_status hn with h | h <;> rw [h] <;>
    intro hc <;> cases hc

/-- C7 (spec scenario A): machine type `m1` with min 2, max 4, no existing
nodes and no demand: `schedule` launches exactly 2 nodes of `m1` and reports
nothing infeasible. -/
theorem C7_scenarioA (now : Nat) :
    ∃ r, ResourceDemandScheduler.schedule scenarioA now = Except.ok r ∧
      launchShape r.to_launch = [("m1", 2)] ∧
      r.infeasible_resource_requests = [] ∧
      r.infeasible_gang_resource_requests = [] ∧
      r.infeasible_cluster_resource_constraints = [] ∧
      r.to_terminate = [] :=
  ⟨_, rfl, rfl, rfl, rfl, rfl, rfl⟩

/-- C1, counterexample: the same request scheduled at two different wall-clock
readings yields different replies, because `get_to_launch` stamps the launch
requests with `time.time_ns()`; the reply is not a function of the request
alone. -/
theorem C1_counterexample :
    ResourceDemandScheduler.schedule scenarioA 0 ≠
      ResourceDemandScheduler.schedule scenarioA 1 := by
  decide

/-- C1 (amended): `schedule` is a pure function of the request and the clock
reading, and two calls with identical requests produce replies that are
identical except for the synthetic time-based id and timestamp fields of the
launch requests: same per-type launch shape, same terminate map, same three
infeasible lists. -/
theorem C1_determinism_up_to_ids (req : SchedulingRequest) (t1 t2 : Nat) :
    ResourceDemandScheduler.schedule req t1 =
      Except.ok (ResourceDemandScheduler.replyOf req t1) ∧
    ResourceDemandScheduler.schedule req t2 =
      Except.ok (ResourceDemandScheduler.replyOf req t2) ∧
    launchShape (ResourceDemandScheduler.replyOf req t1).to_launch =
      launchShape (ResourceDemandScheduler.replyOf req t2).to_launch ∧
    (ResourceDemandScheduler.replyOf req t1).to_terminate =
      (ResourceDemandScheduler.replyOf req t2).to_terminate ∧
    (ResourceDemandScheduler.replyOf req t1).infeasible_resource_requests =
      (ResourceDemandScheduler.replyOf req t2).infeasible_resource_requests ∧
    (ResourceDemandScheduler.replyOf req t1).infeasible_gang_resource_requests =
      (ResourceDemandScheduler.replyOf req t2).infeasible_gang_resource_requests ∧
    (ResourceDemandScheduler.replyOf req t1).infeasible_cluster_resource_constraints =
      (ResourceDemandScheduler.replyOf req t2).infeasible_cluster_resource_constraints := by
  refine ⟨schedule_eq_replyOf req t1, schedule_eq_replyOf req t2, ?_, rfl, rfl, rfl, rfl⟩
  rw [show (ResourceDemandScheduler.replyOf req t1).to_launch =
      (ResourceDemandScheduler.finalCtx req).get_to_launch t1 from rfl,
    show (ResourceDemandScheduler.replyOf req t2).to_launch =
      (ResourceDemandScheduler.finalCtx req).get_to_launch t2 from rfl,
    launchShape_get_to_launch, launchShape_get_to_launch]

/-! ## Claims C8 and C3 (spec-modelled phases 3 and 4) -/

/-- C8 (spec scenario B): one `RUNNING` `m1` node with total and available CPU
4 and one request for CPU 2: after scheduling the node's available resources
are CPU 2 (the request's vector was deducted by `trySchedule`), nothing is
infeasible, and nothing is launched. -/
theorem C8_scenarioB (now : Nat) :
    ((SpecScheduler.finalState scenarioB).1.nodes.map (fun n => n.available_resources)) =
      [[("CPU", (2 : ℚ))]] ∧
    ∃ r, SpecScheduler.schedule scenarioB now = Except.ok r ∧
      r.infeasible_resource_requests = [] ∧
      r.infeasible_gang_resource_requests = [] ∧
      r.infeasible_cluster_resource_constraints = [] ∧
      r.to_launch = [] ∧ r.to_terminate = [] := by
  exact ⟨by decide, _, rfl, rfl, rfl, rfl, rfl, rfl⟩

/-- C3: gang atomicity.  A gang that cannot be fully placed commits nothing:
the context handed to the remaining gangs is exactly the incoming one (no
capacity consumed anywhere, no node launched) and the gang is reported
infeasible.  Concretely for spec scenario C (gang of GPU 1 and CPU 8 on a
CPU-only cluster with no GPU launch budget): both bundles are rejected
together, the reply lists the gang as infeasible, the one running node keeps
all CPU 8 available, and nothing is launched. -/
theorem C3_gang_atomicity :
    (∀ (ctx : ScheduleContext) (g : GangResourceRequest) (gs : List GangResourceRequest),
      tryPlaceGang ctx g = none →
        schedGangResourceRequests ctx (g :: gs) =
          ((schedGangResourceRequests ctx gs).1, g :: (schedGangResourceRequests ctx gs).2)) ∧
    tryPlaceGang (enforceMinWorkers (ScheduleContext.from_schedule_request scenarioC)) gangC
      = none ∧
    (∀ now : Nat,
      ((SpecScheduler.finalState scenarioC).1.nodes.map (fun n => n.available_resources)) =
        [[("CPU", (8 : ℚ))]] ∧
      ∃ r, SpecScheduler.schedule scenarioC now = Except.ok r ∧
        r.infeasible_gang_resource_requests = [gangC] ∧
        r.infeasible_resource_requests = [] ∧
        r.to_launch = []) := by
  refine ⟨?_, by decide, fun now => ⟨by decide, _, rfl, rfl, rfl, rfl⟩⟩
  intro ctx g gs h
  simp only [schedGangResourceRequests, h]

/-- Witness for the hypothesis of `C3_gang_atomicity`: at spec scenario C's
phase-1 context the gang indeed fails placement, so processing it leaves the
context unchanged and reports it. -/
theorem C3_gang_atomicity_witness :
    schedGangResourceRequests
        (enforceMinWorkers (ScheduleContext.from_schedule_request scenarioC)) [gangC] =
      ((schedGangResourceRequests
          (enforceMinWorkers (ScheduleContext.from_schedule_request scenarioC)) []).1,
        gangC :: (schedGangResourceRequests
          (enforceMinWorkers (ScheduleContext.from_schedule_request scenarioC)) []).2) :=
  C3_gang_atomicity.1 _ gangC [] (by decide)

/-! ## Counting lemmas for the min-workers phase -/

lemma countP_minNewNodesList_zero {nodes : List SchedulingNode} {t : String} :
    ∀ {cfgs : List (String × NodeTypeConfig)},
      (∀ q ∈ cfgs, q.2.name ≠ t) →
      (minNewNodesList nodes cfgs).countP (fun n => decide (n.node_type = t)) = 0 := by
  intro cfgs
  induction cfgs with
  | nil => intro h; simp [minNewNodesList]
  | cons q rest ih =>
      intro h
      rw [minNewNodesList, List.countP_append,
        ih (fun a ha => h a (List.mem_cons_of_mem q ha))]
      have hq : q.2.name ≠ t := h q (List.mem_cons_self q rest)
      split
      · rw [List.countP_replicate]
        simp [SchedulingNode.from_node_config, hq]
      · simp

lemma countP_minNewNodesList_eq {nodes : List SchedulingNode} {t : String} :
    ∀ {cfgs : List (String × NodeTypeConfig)},
      (cfgs.map Prod.fst).Nodup →
      (∀ q ∈ cfgs, q.2.name = q.1) →
      ∀ p ∈ cfgs, p.1 = t →
      (minNewNodesList nodes cfgs).countP (fun n => decide (n.node_type = t)) =
        p.2.min_worker_nodes - nodes.countP (fun n => decide (n.node_type = t)) := by
  intro cfgs
  induction cfgs with
  | nil => intro _ _ p hp; cases hp
  | cons q rest ih =>
      intro hnd hname p hp hpt
      rw [List.map_cons, List.nodup_cons] at hnd
      rcases List.mem_cons.mp hp with rfl | hp'
      · subst hpt
        rw [minNewNodesList, List.countP_append, countP_minNewNodesList_zero]
        · have hqname : (SchedulingNode.from_node_config p.2 .TO_LAUNCH none).node_type = p.1 :=
            hname p (List.mem_cons_self p rest)
          split
          · rw [List.countP_replicate, hqname]
            simp
          · rename_i hge
            simp only [List.countP_nil, Nat.zero_add]
            omega
        · intro a ha hat
          have : a.1 ∈ rest.map Prod.fst := List.mem_map_of_mem Prod.fst ha
          rw [hname a (List.mem_cons_of_mem p ha)] at hat
          exact hnd.1 (hat ▸ this)
      · have hq1t : q.1 ≠ t := by
          intro hq
          have : p.1 ∈ rest.map Prod.fst := List.mem_map_of_mem Prod.fst hp'
          exact hnd.1 ((hq.trans hpt.symm) ▸ this)
        rw [minNewNodesList, List.countP_append,
          ih hnd.2 (fun a ha => hname a (List.mem_cons_of_mem q ha)) p hp' hpt]
        have hqname : q.2.name ≠ t := by
          rw [hname q (List.mem_cons_self q rest)]; exact hq1t
        split
        · rw [List.countP_replicate]
          simp [SchedulingNode.from_node_config, hqname]
        · simp

lemma countP_existing_toLaunch_zero {req : SchedulingRequest}
    {p : SchedulingNode → Bool}
    (hp : ∀ n, n.status ≠ .TO_LAUNCH → p n = false) :
    (ScheduleContext.from_schedule_request req).nodes.countP p = 0 := by
  rw [List.countP_eq_zero]
  intro n hn
  rcases from_schedule_request_status hn with h | h <;>
    simp [hp n (by rw [h]; intro hc; cases hc)]

lemma countP_minNew_toLaunch_eq {ctx : ScheduleContext} {t : String} :
    (minNewNodes ctx).countP
        (fun n => decide (n.node_type = t) && decide (n.status = .TO_LAUNCH)) =
      (minNewNodes ctx).countP (fun n => decide (n.node_type = t)) := by
  apply List.countP_congr
  intro n hn
  simp [mem_minNewNodes hn]

/-- `toLaunchCount` of the phase-1 context, for a well-formed config entry: the
deficit of that type, `min_worker_nodes - existing_count` (truncated at zero). -/
lemma toLaunchCount_finalCtx {req : SchedulingRequest}
    (hnd : (req.node_type_configs.map Prod.fst).Nodup)
    (hname : ∀ q ∈ req.node_type_configs, q.2.name = q.1)
    {p : String × NodeTypeConfig} (hp : p ∈ req.node_type_configs) :
    toLaunchCount (ResourceDemandScheduler.finalCtx req) p.1 =
      p.2.min_worker_nodes - existingCount req p.1 := by
  have hzero : (ScheduleContext.from_schedule_request req).nodes.countP
      (fun n => decide (n.node_type = p.1) && decide (n.status = .TO_LAUNCH)) = 0 := by
    apply countP_existing_toLaunch_zero
    intro n hn
    simp [hn]
  rw [toLaunchCount, ResourceDemandScheduler.finalCtx, enforceMinWorkers_nodes,
    List.countP_append, hzero, countP_minNew_toLaunch_eq,
    show minNewNodes (ScheduleContext.from_schedule_request req) =
      minNewNodesList (ScheduleContext.from_schedule_request req).nodes
        req.node_type_configs from rfl,
    countP_minNewNodesList_eq hnd hname p hp rfl]
  rfl

/-- Per-type node count of the phase-1 context, for a well-formed config entry:
the maximum of the existing count and the configured minimum. -/
lemma countTypeCtx_finalCtx {req : SchedulingRequest}
    (hnd : (req.node_type_configs.map Prod.fst).Nodup)
    (hname : ∀ q ∈ req.node_type_configs, q.2.name = q.1)
    {p : String × NodeTypeConfig} (hp : p ∈ req.node_type_configs) :
    countTypeCtx (ResourceDemandScheduler.finalCtx req) p.1 =
      (p.2.min_worker_nodes - existingCount req p.1) + existingCount req p.1 := by
  rw [countTypeCtx, ResourceDemandScheduler.finalCtx, enforceMinWorkers_nodes,
    List.countP_append,
    show minNewNodes (ScheduleContext.from_schedule_request req) =
      minNewNodesList (ScheduleContext.from_schedule_request req).nodes
        req.node_type_configs from rfl,
    countP_minNewNodesList_eq hnd hname p hp rfl]
  rfl

/-! ## From the launch plan back to `TO_LAUNCH` node counts -/

lemma sumFor_upsertCount (acc : List (String × Nat)) (u t : String) :
    sumFor (upsertCount acc u) t = sumFor acc t + (if u = t then 1 else 0) := by
  induction acc with
  | nil => simp [upsertCount, sumFor]
  | cons p rest ih =>
      rw [upsertCount]
      split
      · rename_i hpu
        by_cases hut : u = t <;> simp [sumFor, hpu, hut] <;> omega
      · simp only [sumFor, List.map_cons, List.sum_cons] at ih ⊢
        omega

lemma sumFor_launchByType_fold (t : String) :
    ∀ (nodes : List SchedulingNode) (acc : List (String × Nat)),
      sumFor (nodes.foldl
          (fun acc n => if n.status = .TO_LAUNCH then upsertCount acc n.node_type else acc)
          acc) t =
        sumFor acc t +
          nodes.countP (fun n => decide (n.node_type = t) && decide (n.status = .TO_LAUNCH)) := by
  intro nodes
  induction nodes with
  | nil => intro acc; simp
  | cons n rest ih =>
      intro acc
      rw [List.foldl_cons, List.countP_cons, ih]
      by_cases hs : n.status = .TO_LAUNCH
      · by_cases ht : n.node_type = t <;>
          simp [hs, ht, sumFor_upsertCount] <;> omega
      · have : (decide (n.node_type = t) && decide (n.status = .TO_LAUNCH)) = false := by
          simp [hs]
        simp [hs, this]

lemma launchedCount_get_to_launch (ctx : ScheduleContext) (now : Nat) (t : String) :
    launchedCount (ctx.get_to_launch now) t = toLaunchCount ctx t := by
  have h1 : launchedCount (ctx.get_to_launch now) t = sumFor (launchByType ctx.nodes) t := by
    simp only [launchedCount, ScheduleContext.get_to_launch, sumFor, List.map_map]
    rfl
  rw [h1, launchByType, sumFor_launchByType_fold, toLaunchCount]
  simp [sumFor]

/-! ## Claims C4 and C5 -/

/-- C4, counterexample: with machine type `m1` configured min 0, max 1 (so the
claim's `min ≤ max` hypothesis holds) but two `m1` nodes already running,
`schedule` launches nothing and `existing + launched = 2 > 1 = max`. -/
theorem C4_counterexample :
    lookupConfig c4request.node_type_configs "m1" =
      some { name := "m1", min_worker_nodes := 0, max_worker_nodes := 1,
             resources := [("CPU", 4)], labels := [] } ∧
    existingCount c4request "m1" = 2 ∧
    launchedCount ((ResourceDemandScheduler.replyOf c4request 0).to_launch) "m1" = 0 ∧
    ¬ (existingCount c4request "m1" +
        launchedCount ((ResourceDemandScheduler.replyOf c4request 0).to_launch) "m1" ≤ 1) := by
  decide

/-- C4 (amended): for a well-formed request in which every machine type has
`min_worker_nodes ≤ max_worker_nodes` AND at most `max_worker_nodes` existing
nodes, after `schedule` the existing count plus the launched count stays within
`max_worker_nodes` for every machine type. -/
theorem C4_capacity_conservation (req : SchedulingRequest) (now : Nat)
    (hwf : wellFormedConfigs req)
    (hminmax : ∀ p ∈ req.node_type_configs, p.2.min_worker_nodes ≤ p.2.max_worker_nodes)
    (hexist : ∀ p ∈ req.node_type_configs, existingCount req p.1 ≤ p.2.max_worker_nodes) :
    ∀ p ∈ req.node_type_configs,
      existingCount req p.1 +
          launchedCount ((ResourceDemandScheduler.replyOf req now).to_launch) p.1 ≤
        p.2.max_worker_nodes := by
  intro p hp
  have hl : launchedCount ((ResourceDemandScheduler.replyOf req now).to_launch) p.1 =
      p.2.min_worker_nodes - existingCount req p.1 := by
    rw [show (ResourceDemandScheduler.replyOf req now).to_launch =
        (ResourceDemandScheduler.finalCtx req).get_to_launch now from rfl,
      launchedCount_get_to_launch, toLaunchCount_finalCtx hwf.1 hwf.2 hp]
  rw [hl]
  have h1 := hminmax p hp
  have h2 := hexist p hp
  omega

/-- Witness for `C4_capacity_conservation` at spec scenario A (min 2, max 4, no
existing nodes): 0 existing plus 2 launched stays within max 4. -/
theorem C4_capacity_conservation_witness :
    existingCount scenarioA "m1" +
        launchedCount ((ResourceDemandScheduler.replyOf scenarioA 0).to_launch) "m1" ≤ 4 :=
  C4_capacity_conservation scenarioA 0 (by decide) (by decide) (by decide)
    ("m1", { name := "m1", min_worker_nodes := 2, max_worker_nodes := 4,
             resources := [("CPU", 1)], labels := [] }) (by decide)

/-- C5: after the min-workers phase (phase 1), every configured machine type of
a well-formed request has at least `min_worker_nodes` nodes in the context, and
a type whose existing count already meets its minimum gains no `TO_LAUNCH`
node. -/
theorem C5_min_workers (req : SchedulingRequest)
    (hwf : wellFormedConfigs req) :
    ∀ p ∈ req.node_type_configs,
      p.2.min_worker_nodes ≤ countTypeCtx (ResourceDemandScheduler.finalCtx req) p.1 ∧
      (p.2.min_worker_nodes ≤ existingCount req p.1 →
        toLaunchCount (ResourceDemandScheduler.finalCtx req) p.1 = 0) := by
  intro p hp
  constructor
  · rw [countTypeCtx_finalCtx hwf.1 hwf.2 hp]
    omega
  · intro hmin
    rw [toLaunchCount_finalCtx hwf.1 hwf.2 hp]
    omega

/-- Witness for `C5_min_workers` at spec scenario A: `m1` reaches its minimum
of 2 nodes. -/
theorem C5_min_workers_witness :
    2 ≤ countTypeCtx (ResourceDemandScheduler.finalCtx scenarioA) "m1" ∧
    (2 ≤ existingCount scenarioA "m1" →
      toLaunchCount (ResourceDemandScheduler.finalCtx scenarioA) "m1" = 0) :=
  C5_min_workers scenarioA (by decide)
    ("m1", { name := "m1", min_worker_nodes := 2, max_worker_nodes := 4,
             resources := [("CPU", 1)], labels := [] }) (by decide)


/-! ## Reconciler helper lemmas -/

lemma termStep_frozen {pool errs} {p : IMInstance × Bool} (h : p.2 = true) :
    termStep pool errs p = p := by
  simp [termStep, h]

lemma rayRunningStep_frozen {nodes} {p : IMInstance × Bool} (h : p.2 = true) :
    rayRunningStep nodes p = p := by
  simp [rayRunningStep, h]

lemma rayStoppedStep_frozen {nodes} {p : IMInstance × Bool} (h : p.2 = true) :
    rayStoppedStep nodes p = p := by
  simp [rayStoppedStep, h]

lemma installFailedStep_frozen {errs} {p : IMInstance × Bool} (h : p.2 = true) :
    installFailedStep errs p = p := by
  simp [installFailedStep, h]

lemma termStep_cases (pool errs) (p : IMInstance × Bool) :
    termStep pool errs p = p ∨ (termStep pool errs p).2 = true := by
  unfold termStep
  split
  · exact Or.inl rfl
  · split
    · split
      · exact Or.inr rfl
      · split
        · exact Or.inr rfl
        · exact Or.inl rfl
    · exact Or.inl rfl

lemma rayRunningStep_cases (nodes) (p : IMInstance × Bool) :
    rayRunningStep nodes p = p ∨ (rayRunningStep nodes p).2 = true := by
  unfold rayRunningStep
  split
  · exact Or.inl rfl
  · split
    · split
      · exact Or.inr rfl
      · exact Or.inl rfl
    · exact Or.inl rfl

lemma rayStoppedStep_cases (nodes) (p : IMInstance × Bool) :
    rayStoppedStep nodes p = p ∨ (rayStoppedStep nodes p).2 = true := by
  unfold rayStoppedStep
  split
  · exact Or.inl rfl
  · split
    · split
      · exact Or.inr rfl
      · exact Or.inl rfl
    · exact Or.inl rfl

lemma installFailedStep_cases (errs) (p : IMInstance × Bool) :
    installFailedStep errs p = p ∨ (installFailedStep errs p).2 = true := by
  unfold installFailedStep
  split
  · exact Or.inl rfl
  · split
    · exact Or.inr rfl
    · exact Or.inl rfl

lemma allocStep_cases (pool errs A) (i : IMInstance) :
    (allocStep pool errs A i).1 = (i, false) ∨ (allocStep pool errs A i).1.2 = true := by
  unfold allocStep
  split
  · split
    · split
      · exact Or.inr rfl
      · split
        · exact Or.inr rfl
        · exact Or.inl rfl
    · exact Or.inl rfl
  · exact Or.inl rfl

lemma allocStep_assigned_mono {pool errs A} {i : IMInstance} {c : String}
    (h : c ∈ A) : c ∈ (allocStep pool errs A i).2 := by
  unfold allocStep
  split
  · split
    · split
      · exact List.mem_cons_of_mem _ h
      · split
        · exact h
        · exact h
    · exact h
  · exact h

lemma allocGo_length (pool errs) :
    ∀ (xs : List IMInstance) (A : List String),
      (allocGo pool errs A xs).length = xs.length := by
  intro xs
  induction xs with
  | nil => intro A; rfl
  | cons i rest ih => intro A; simp [allocGo, ih]

lemma allocGo_get (pool errs) :
    ∀ (xs : List IMInstance) (A : List String) (k : Nat),
      ∃ A', (∀ c ∈ A, c ∈ A') ∧
        (allocGo pool errs A xs)[k]? =
          (xs[k]?).map (fun i => (allocStep pool errs A' i).1) := by
  intro xs
  induction xs with
  | nil => intro A k; exact ⟨A, fun _ hc => hc, by simp [allocGo]⟩
  | cons i rest ih =>
      intro A k
      cases k with
      | zero => exact ⟨A, fun _ hc => hc, by simp [allocGo]⟩
      | succ m =>
          obtain ⟨A', hsub, heq⟩ := ih (allocStep pool errs A i).2 m
          refine ⟨A', fun c hc => hsub c (allocStep_assigned_mono hc), ?_⟩
          simp [allocGo, heq]

lemma syncStage1_length (s : List IMInstance) (inp : SyncInputs) :
    (syncStage1 s inp).length = s.length :=
  allocGo_length _ _ s _

lemma syncStage5_length (s : List IMInstance) (inp : SyncInputs) :
    (syncStage5 s inp).length = s.length := by
  simp [syncStage5, syncStage4, syncStage3, syncStage2, syncStage1_length]

lemma sync_from_length (s : List IMInstance) (inp : SyncInputs) :
    (Reconciler.sync_from s inp).length = s.length := by
  simp [Reconciler.sync_from, syncStage5_length]

/-! ## At most one transition per instance per `sync_from` call (C6) -/

lemma changesCount_pair_le_one
    (q0 q1 q2 q3 q4 q5 : IMInstance × Bool)
    (h1 : q1 = q0 ∨ q1.2 = true)
    (h2 : q2 = q1 ∨ q2.2 = true) (f2 : q1.2 = true → q2 = q1)
    (h3 : q3 = q2 ∨ q3.2 = true) (f3 : q2.2 = true → q3 = q2)
    (h4 : q4 = q3 ∨ q4.2 = true) (f4 : q3.2 = true → q4 = q3)
    (h5 : q5 = q4 ∨ q5.2 = true) (f5 : q4.2 = true → q5 = q4) :
    changesCount [some q0.1, some q1.1, some q2.1, some q3.1, some q4.1, some q5.1] ≤ 1 := by
  rcases h1 with e1 | g1
  · rcases h2 with e2 | g2
    · rcases h3 with e3 | g3
      · rcases h4 with e4 | g4
        · rcases h5 with e5 | g5
          · rw [e5, e4, e3, e2, e1]
            simp [changesCount, List.countP_cons]
          · rw [e4, e3, e2, e1]
            simp only [changesCount, List.zip, List.zipWith, List.tail,
              List.countP_cons, List.countP_nil]
            split <;> simp
        · have e5 := f5 g4
          rw [e5, e3, e2, e1]
          simp only [changesCount, List.zip, List.zipWith, List.tail,
            List.countP_cons, List.countP_nil]
          split <;> split <;> simp_all
      · have e4 := f4 g3
        have e5 := f5 (e4 ▸ g3)
        rw [e5, e4, e2, e1]
        simp only [changesCount, List.zip, List.zipWith, List.tail,
          List.countP_cons, List.countP_nil]
        split <;> split <;> simp_all
    · have e3 := f3 g2
      have e4 := f4 (e3 ▸ g2)
      have e5 := f5 (e4 ▸ e3 ▸ g2)
      rw [e5, e4, e3, e1]
      simp only [changesCount, List.zip, List.zipWith, List.tail,
        List.countP_cons, List.countP_nil]
      split <;> split <;> simp_all
  · have e2 := f2 g1
    have e3 := f3 (e2 ▸ g1)
    have e4 := f4 (e3 ▸ e2 ▸ g1)
    have e5 := f5 (e4 ▸ e3 ▸ e2 ▸ g1)
    rw [e5, e4, e3, e2]
    simp only [changesCount, List.zip, List.zipWith, List.tail,
      List.countP_cons, List.countP_nil]
    split <;> split <;> simp_all

lemma recordTrace_changes_le_one (s : List IMInstance) (inp : SyncInputs) (k : Nat) :
    changesCount (recordTrace s inp k) ≤ 1 := by
  by_cases hk : k < s.length
  · have hsk : s[k]? = some s[k] := List.getElem?_eq_getElem hk
    obtain ⟨A', -, h1eq⟩ := allocGo_get inp.non_terminated_cloud_instances
      inp.cloud_provider_errors s (refsOf s) k
    set q0 : IMInstance × Bool := (s[k], false) with hq0
    set q1 := (allocStep inp.non_terminated_cloud_instances inp.cloud_provider_errors A' s[k]).1 with hq1
    set q2 := termStep inp.non_terminated_cloud_instances inp.cloud_provider_errors q1 with hq2
    set q3 := rayRunningStep inp.ray_nodes q2 with hq3
    set q4 := rayStoppedStep inp.ray_nodes q3 with hq4
    set q5 := installFailedStep inp.ray_install_errors q4 with hq5
    have ht : recordTrace s inp k =
        [some q0.1, some q1.1, some q2.1, some q3.1, some q4.1, some q5.1] := by
      simp only [recordTrace, syncStage5, syncStage4, syncStage3, syncStage2, syncStage1,
        List.getElem?_map, hsk, h1eq, Option.map_map, Option.map_some]
      rfl
    rw [ht]
    refine changesCount_pair_le_one q0 q1 q2 q3 q4 q5
      ?_ (termStep_cases _ _ _) (fun h => termStep_frozen h)
      (rayRunningStep_cases _ _) (fun h => rayRunningStep_frozen h)
      (rayStoppedStep_cases _ _) (fun h => rayStoppedStep_frozen h)
      (installFailedStep_cases _ _) (fun h => installFailedStep_frozen h)
    exact allocStep_cases _ _ _ _
  · have hsk : s[k]? = none := List.getElem?_eq_none (Nat.le_of_not_lt hk)
    have h1 : (syncStage1 s inp)[k]? = none := by
      apply List.getElem?_eq_none
      rw [syncStage1_length]
      exact Nat.le_of_not_lt hk
    have ht : recordTrace s inp k = [none, none, none, none, none, none] := by
      simp only [recordTrace, syncStage5, syncStage4, syncStage3, syncStage2,
        List.getElem?_map, hsk, h1, Option.map_none]
      rfl
    rw [ht]
    simp [changesCount, List.countP_cons]

/-- C6, counterexample: an `ALLOCATED` instance whose cloud instance is absent
while a joined ray node still reports it.  Rules 3 and 4 both match; the source
calls `_handle_cloud_instance_terminated` before `_handle_ray_running`, so the
instance ends `TERMINATED`, not `RAY_RUNNING` as rule-3-over-rule-4 priority
would demand. -/
theorem C6_counterexample :
    (Reconciler.sync_from c6store c6inp).map (fun i => i.status) =
      [InstanceStatus.TERMINATED] ∧
    InstanceStatus.TERMINATED ≠ InstanceStatus.RAY_RUNNING := by
  decide

/-- C6 (amended): within one `sync_from` call at most one transition is applied
per instance — once a handler changes an instance's record, every later handler
leaves it untouched — but the handlers run in the source's call order
(rules 1–2, then 4–5, then 3, then 6, then 7), so rule 4 takes priority over
rule 3: with a cloud instance gone and its ray node still reporting joined, the
instance becomes `TERMINATED`. -/
theorem C6_one_transition_code_order :
    (∀ (s : List IMInstance) (inp : SyncInputs) (k : Nat),
      changesCount (recordTrace s inp k) ≤ 1) ∧
    Reconciler.sync_from c6store c6inp =
      [{ id := "i1", instance_type := "m1", status := .TERMINATED,
         launch_request_id := none, cloud_instance_id := some "c1" }] :=
  ⟨recordTrace_changes_le_one, by decide⟩

/-! ## Provider launch errors (C9) -/

lemma firstUnassigned_none {pool : List CloudInstance} {A : List String} {t : String}
    (h : ∀ c ∈ pool, c.instance_type = t → c.id ∈ A) :
    firstUnassigned pool A t = none := by
  rw [firstUnassigned, List.find?_eq_none]
  intro c hc
  by_cases hct : c.instance_type = t
  · have hmem := h c hc hct
    simp [hct, hmem]
  · simp [hct]

lemma sync_from_allocation_failed {s : List IMInstance} {inp : SyncInputs} {k : Nat}
    {i : IMInstance} {r ty : String}
    (hk : s[k]? = some i) (hst : i.status = .REQUESTED)
    (hlr : i.launch_request_id = some r)
    (herr : CloudInstanceProviderError.launch r ty ∈ inp.cloud_provider_errors)
    (hcand : ∀ c ∈ inp.non_terminated_cloud_instances,
      c.instance_type = i.instance_type → c.id ∈ refsOf s) :
    (Reconciler.sync_from s inp)[k]? = some { i with status := .ALLOCATION_FAILED } := by
  obtain ⟨A', hsub, h1⟩ := allocGo_get inp.non_terminated_cloud_instances
    inp.cloud_provider_errors s (refsOf s) k
  have hfu : firstUnassigned inp.non_terminated_cloud_instances A' i.instance_type = none :=
    firstUnassigned_none (fun c hc hct => hsub _ (hcand c hc hct))
  have hmatch : launchErrMatch inp.cloud_provider_errors r = true := by
    simp only [launchErrMatch, List.any_eq_true]
    exact ⟨_, herr, by simp⟩
  have hstep : allocStep inp.non_terminated_cloud_instances inp.cloud_provider_errors A' i =
      (({ i with status := .ALLOCATION_FAILED }, true), A') := by
    simp [allocStep, hlr, hst, hfu, hmatch]
  simp only [Reconciler.sync_from, syncStage5, syncStage4, syncStage3, syncStage2,
    syncStage1, List.getElem?_map, h1, hk, Option.map_some']
  rw [hstep]
  simp only [termStep_frozen, rayRunningStep_frozen, rayStoppedStep_frozen,
    installFailedStep_frozen]

lemma allocStep_assigned_indep (pool : List CloudInstance)
    (errs errs' : List CloudInstanceProviderError) (A : List String) (i : IMInstance) :
    (allocStep pool errs' A i).2 = (allocStep pool errs A i).2 := by
  cases hl : i.launch_request_id with
  | none => simp [allocStep, hl]
  | some r =>
      simp only [allocStep, hl]
      by_cases hst : i.status = .QUEUED ∨ i.status = .REQUESTED
      · simp only [if_pos hst]
        cases hfu : firstUnassigned pool A i.instance_type with
        | none =>
            split
            · rfl
            · split
              · split
                · rfl
                · rfl
              · split
                · rfl
                · rfl
        | some c => rfl
      · simp only [if_neg hst]

lemma allocStep_frame {pool : List CloudInstance} {errs} {A : List String}
    {r ty : String} {i : IMInstance} (h : i.launch_request_id ≠ some r) :
    allocStep pool (CloudInstanceProviderError.launch r ty :: errs) A i = allocStep pool errs A i := by
  cases hl : i.launch_request_id with
  | none => simp [allocStep, hl]
  | some r' =>
      have hrr : (decide (r = r') : Bool) = false :=
        decide_eq_false (fun hf => h (hf ▸ hl))
      simp only [allocStep, hl]
      by_cases hst : i.status = .QUEUED ∨ i.status = .REQUESTED
      · simp only [if_pos hst]
        cases hfu : firstUnassigned pool A i.instance_type with
        | none => simp only [launchErrMatch, List.any_cons, hrr, Bool.false_or]
        | some c => rfl
      · simp only [if_neg hst]

lemma allocGo_frame {pool : List CloudInstance} {errs} {r ty : String} :
    ∀ (xs : List IMInstance) (A : List String) (k : Nat) (i : IMInstance),
      xs[k]? = some i → i.launch_request_id ≠ some r →
      (allocGo pool (CloudInstanceProviderError.launch r ty :: errs) A xs)[k]? = (allocGo pool errs A xs)[k]? := by
  intro xs
  induction xs with
  | nil => intro A k i hk; simp at hk
  | cons j rest ih =>
      intro A k i hk hlr
      cases k with
      | zero =>
          simp only [List.getElem?_cons_zero, Option.some.injEq] at hk
          subst hk
          simp [allocGo, allocStep_frame hlr]
      | succ m =>
          simp only [List.getElem?_cons_succ] at hk
          simp only [allocGo, List.getElem?_cons_succ,
            allocStep_assigned_indep pool errs (CloudInstanceProviderError.launch r ty :: errs) A j]
          exact ih _ m i hk hlr

lemma termStep_launch_cons (pool : List CloudInstance) (errs) (r ty : String)
    (p : IMInstance × Bool) :
    termStep pool (CloudInstanceProviderError.launch r ty :: errs) p = termStep pool errs p := by
  unfold termStep
  have : terminateErrMatch (CloudInstanceProviderError.launch r ty :: errs) = terminateErrMatch errs := by
    funext cid
    simp [terminateErrMatch]
  rw [this]

lemma sync_from_frame {s : List IMInstance} {inp : SyncInputs} {k : Nat}
    {i : IMInstance} {r ty : String}
    (hk : s[k]? = some i) (hlr : i.launch_request_id ≠ some r) :
    (Reconciler.sync_from s
        { inp with cloud_provider_errors :=
            CloudInstanceProviderError.launch r ty :: inp.cloud_provider_errors })[k]? =
      (Reconciler.sync_from s inp)[k]? := by
  have h1 : (syncStage1 s { inp with cloud_provider_errors :=
      CloudInstanceProviderError.launch r ty :: inp.cloud_provider_errors })[k]? = (syncStage1 s inp)[k]? :=
    allocGo_frame s (refsOf s) k i hk hlr
  have hterm : termStep inp.non_terminated_cloud_instances
      (CloudInstanceProviderError.launch r ty :: inp.cloud_provider_errors) =
      termStep inp.non_terminated_cloud_instances inp.cloud_provider_errors := by
    funext p
    exact termStep_launch_cons _ _ _ _ p
  simp only [Reconciler.sync_from, syncStage5, syncStage4, syncStage3, syncStage2,
    List.getElem?_map, hterm, h1]

/-- C9, counterexample: two `REQUESTED` instances, launch errors for both
request ids, and one unassigned `m1` cloud instance.  Rule 1 outranks rule 2,
so the first instance ends `ALLOCATED` rather than `ALLOCATION_FAILED`, and the
second instance — another instance of the store — changes as well. -/
theorem C9_counterexample :
    (Reconciler.sync_from c9store c9inp).map (fun i => i.status) =
      [InstanceStatus.ALLOCATED, InstanceStatus.ALLOCATION_FAILED] ∧
    InstanceStatus.ALLOCATED ≠ InstanceStatus.ALLOCATION_FAILED ∧
    (Reconciler.sync_from c9store c9inp)[1]? ≠ c9store[1]? := by
  decide

/-- C9 (amended): (1) a `REQUESTED` instance with a launch-request id whose
provider launch error is reported becomes `ALLOCATION_FAILED`, provided no
unassigned cloud instance of its machine type is available (rule 1 would
outrank rule 2); (2) adding a launch error leaves every instance whose
launch-request id differs from the error's request id with exactly the record
it would have had without the error; hence (3) an error whose request id
matches no instance of the store changes nothing and is not fatal. -/
theorem C9_provider_error_handling :
    (∀ (s : List IMInstance) (inp : SyncInputs) (k : Nat) (i : IMInstance) (r ty : String),
      s[k]? = some i → i.status = .REQUESTED → i.launch_request_id = some r →
      CloudInstanceProviderError.launch r ty ∈ inp.cloud_provider_errors →
      (∀ c ∈ inp.non_terminated_cloud_instances,
        c.instance_type = i.instance_type → c.id ∈ refsOf s) →
      (Reconciler.sync_from s inp)[k]? = some { i with status := .ALLOCATION_FAILED }) ∧
    (∀ (s : List IMInstance) (inp : SyncInputs) (k : Nat) (i : IMInstance) (r ty : String),
      s[k]? = some i → i.launch_request_id ≠ some r →
      (Reconciler.sync_from s
        { inp with cloud_provider_errors :=
            CloudInstanceProviderError.launch r ty :: inp.cloud_provider_errors })[k]? =
        (Reconciler.sync_from s inp)[k]?) ∧
    (∀ (s : List IMInstance) (inp : SyncInputs) (r ty : String),
      (∀ i ∈ s, i.launch_request_id ≠ some r) →
      Reconciler.sync_from s
        { inp with cloud_provider_errors :=
            CloudInstanceProviderError.launch r ty :: inp.cloud_provider_errors } =
        Reconciler.sync_from s inp) := by
  refine ⟨fun s inp k i r ty hk hst hlr herr hcand =>
      sync_from_allocation_failed hk hst hlr herr hcand,
    fun s inp k i r ty hk hlr => sync_from_frame hk hlr, ?_⟩
  intro s inp r ty hnone
  apply List.ext_getElem?
  intro k
  by_cases hk : k < s.length
  · have hsk : s[k]? = some s[k] := List.getElem?_eq_getElem hk
    exact sync_from_frame hsk (hnone _ (List.getElem_mem hk))
  · have h1 : (Reconciler.sync_from s
        { inp with cloud_provider_errors :=
            CloudInstanceProviderError.launch r ty :: inp.cloud_provider_errors })[k]? = none := by
      apply List.getElem?_eq_none
      rw [sync_from_length]
      exact Nat.le_of_not_lt hk
    have h2 : (Reconciler.sync_from s inp)[k]? = none := by
      apply List.getElem?_eq_none
      rw [sync_from_length]
      exact Nat.le_of_not_lt hk
    rw [h1, h2]

/-- Witness for `C9_provider_error_handling`: a single `REQUESTED` instance, a
matching launch error, an empty pool; its status becomes `ALLOCATION_FAILED`;
and adding an error for an unknown request id `r9` changes nothing. -/
theorem C9_provider_error_handling_witness :
    (Reconciler.sync_from
        [{ id := "i1", instance_type := "m1", status := .REQUESTED,
           launch_request_id := some "r1", cloud_instance_id := none }]
        { ray_nodes := [], non_terminated_cloud_instances := [],
          cloud_provider_errors := [.launch "r1" "m1"], ray_install_errors := [] })[0]? =
      some { id := "i1", instance_type := "m1", status := .ALLOCATION_FAILED,
             launch_request_id := some "r1", cloud_instance_id := none } ∧
    Reconciler.sync_from
        [{ id := "i1", instance_type := "m1", status := .REQUESTED,
           launch_request_id := some "r1", cloud_instance_id := none }]
        { ray_nodes := [], non_terminated_cloud_instances := [],
          cloud_provider_errors := [.launch "r9" "m1"], ray_install_errors := [] } =
      Reconciler.sync_from
        [{ id := "i1", instance_type := "m1", status := .REQUESTED,
           launch_request_id := some "r1", cloud_instance_id := none }]
        { ray_nodes := [], non_terminated_cloud_instances := [],
          cloud_provider_errors := [], ray_install_errors := [] } :=
  ⟨C9_provider_error_handling.1
      [{ id := "i1", instance_type := "m1", status := .REQUESTED,
         launch_request_id := some "r1", cloud_instance_id := none }]
      { ray_nodes := [], non_terminated_cloud_instances := [],
        cloud_provider_errors := [.launch "r1" "m1"], ray_install_errors := [] }
      0 { id := "i1", instance_type := "m1", status := .REQUESTED,
          launch_request_id := some "r1", cloud_instance_id := none }
      "r1" "m1" (by decide) (by decide) (by decide) (by decide) (by decide),
   C9_provider_error_handling.2.2
      [{ id := "i1", instance_type := "m1", status := .REQUESTED,
         launch_request_id := some "r1", cloud_instance_id := none }]
      { ray_nodes := [], non_terminated_cloud_instances := [],
        cloud_provider_errors := [], ray_install_errors := [] }
      "r9" "m1" (by decide)⟩

/-! ## Idempotence of `sync_from` on allocation and termination (C2) -/

lemma rayRunningStep_empty (p : IMInstance × Bool) : rayRunningStep [] p = p := by
  rcases p with ⟨i, b⟩
  cases b
  · cases hc : i.cloud_instance_id <;> simp [rayRunningStep, hc]
  · simp [rayRunningStep]

lemma rayStoppedStep_empty (p : IMInstance × Bool) : rayStoppedStep [] p = p := by
  rcases p with ⟨i, b⟩
  cases b
  · cases hc : i.cloud_instance_id <;> simp [rayStoppedStep, hc]
  · simp [rayStoppedStep]

lemma installFailedStep_empty (p : IMInstance × Bool) : installFailedStep [] p = p := by
  rcases p with ⟨i, b⟩
  cases b
  · simp [installFailedStep]
  · simp [installFailedStep]

lemma sync_from_no_ray (s : List IMInstance) (inp : SyncInputs)
    (hray : inp.ray_nodes = []) (hinst : inp.ray_install_errors = []) :
    Reconciler.sync_from s inp = (syncStage2 s inp).map Prod.fst := by
  have h3 : syncStage3 s inp = syncStage2 s inp := by
    rw [syncStage3, hray]
    exact List.map_id'' rayRunningStep_empty _
  have h4 : syncStage4 s inp = syncStage2 s inp := by
    rw [syncStage4, h3, hray]
    exact List.map_id'' rayStoppedStep_empty _
  have h5 : syncStage5 s inp = syncStage2 s inp := by
    rw [syncStage5, h4, hinst]
    exact List.map_id'' installFailedStep_empty _
  rw [Reconciler.sync_from, h5]

lemma allocStep_nofire_not_qr {pool errs B} {j : IMInstance}
    (h : ¬(j.status = .QUEUED ∨ j.status = .REQUESTED)) :
    allocStep pool errs B j = ((j, false), B) := by
  cases hl : j.launch_request_id with
  | none => simp [allocStep, hl]
  | some r => simp [allocStep, hl, if_neg h]

lemma termStep_cloud (pool errs) (p : IMInstance × Bool) :
    (termStep pool errs p).1.cloud_instance_id = p.1.cloud_instance_id := by
  unfold termStep
  split
  · rfl
  · split
    · split
      · rfl
      · split
        · rfl
        · rfl
    · rfl

lemma termStep_lrid (pool errs) (p : IMInstance × Bool) :
    (termStep pool errs p).1.launch_request_id = p.1.launch_request_id := by
  unfold termStep
  split
  · rfl
  · split
    · split
      · rfl
      · split
        · rfl
        · rfl
    · rfl

lemma termStep_status_cases (pool errs) (p : IMInstance × Bool) :
    (termStep pool errs p).1.status = p.1.status ∨
    (termStep pool errs p).1.status = .TERMINATED ∨
    (termStep pool errs p).1.status = .TERMINATION_FAILED := by
  unfold termStep
  split
  · exact Or.inl rfl
  · split
    · split
      · exact Or.inr (Or.inl rfl)
      · split
        · exact Or.inr (Or.inr rfl)
        · exact Or.inl rfl
    · exact Or.inl rfl

lemma termStep_idem (pool errs) (i : IMInstance) :
    termStep pool errs ((termStep pool errs (i, false)).1, false) =
      ((termStep pool errs (i, false)).1, false) := by
  cases hc : i.cloud_instance_id with
  | none =>
      have h1 : termStep pool errs (i, false) = (i, false) := by
        simp [termStep, hc]
      rw [h1]
      exact h1
  | some cc =>
      by_cases h4 : ¬ (pool.any (fun ci => decide (ci.id = cc)) = true) ∧
          i.status ≠ .TERMINATED
      · have h1 : termStep pool errs (i, false) =
            ({ i with status := .TERMINATED }, true) := by
          simp only [termStep, Bool.false_eq_true, if_false, hc, if_pos h4]
        rw [h1]
        simp [termStep, hc]
      · by_cases h5 : i.status = .TERMINATING ∧ terminateErrMatch errs cc = true
        · have hany : pool.any (fun ci => decide (ci.id = cc)) = true := by
            by_contra hn
            exact h4 ⟨hn, by rw [h5.1]; intro hcon; cases hcon⟩
          have h1 : termStep pool errs (i, false) =
              ({ i with status := .TERMINATION_FAILED }, true) := by
            simp only [termStep, Bool.false_eq_true, if_false, hc, if_neg h4, if_pos h5]
          rw [h1]
          simp [termStep, hc, hany]
        · have h1 : termStep pool errs (i, false) = (i, false) := by
            simp only [termStep, Bool.false_eq_true, if_false, hc, if_neg h4, if_neg h5]
          rw [h1]
          exact h1

lemma firstUnassigned_none_mono {pool : List CloudInstance} {A B : List String} {t : String}
    (h : firstUnassigned pool A t = none) (hAB : ∀ c ∈ A, c ∈ B) :
    firstUnassigned pool B t = none := by
  rw [firstUnassigned, List.find?_eq_none] at h ⊢
  intro c hc
  have hA := h c hc
  by_cases hct : c.instance_type = t
  · simp only [Bool.and_eq_true, Bool.not_eq_true', decide_eq_true_eq] at hA ⊢
    rintro ⟨-, hBc⟩
    apply hA
    refine ⟨hct, ?_⟩
    cases hAx : A.contains c.id
    · rfl
    · have hmem : c.id ∈ A := List.elem_iff.mp hAx
      have hB : B.contains c.id = true := List.elem_iff.mpr (hAB _ hmem)
      rw [hBc] at hB
      cases hB
  · simp [hct]

lemma allocGo_cons (pool errs A) (i : IMInstance) (rest : List IMInstance) :
    allocGo pool errs A (i :: rest) =
      (allocStep pool errs A i).1 :: allocGo pool errs (allocStep pool errs A i).2 rest := rfl

lemma assignedAfter_cons (pool errs A) (i : IMInstance) (rest : List IMInstance) :
    assignedAfter pool errs A (i :: rest) =
      assignedAfter pool errs (allocStep pool errs A i).2 rest := rfl

/-- The core of the restricted idempotence: an instance already processed by the
allocation and termination handlers is a fixed point of both on a second pass
whose assigned-id set contains the first pass's. -/
lemma head_stable (pool : List CloudInstance) (errs : List CloudInstanceProviderError)
    (A B : List String) (i : IMInstance)
    (hwf : (i.status = .QUEUED ∨ i.status = .REQUESTED) → i.cloud_instance_id = none)
    (hAB : ∀ c ∈ A, c ∈ B) :
    allocStep pool errs B ((termStep pool errs (allocStep pool errs A i).1).1) =
      (((termStep pool errs (allocStep pool errs A i).1).1, false), B) ∧
    termStep pool errs ((termStep pool errs (allocStep pool errs A i).1).1, false) =
      ((termStep pool errs (allocStep pool errs A i).1).1, false) := by
  cases hl : i.launch_request_id with
  | none =>
      have hstep : allocStep pool errs A i = ((i, false), A) := by simp [allocStep, hl]
      have hlz : ((termStep pool errs (i, false)).1).launch_request_id = none := by
        rw [termStep_lrid]; exact hl
      have halloc : allocStep pool errs B ((termStep pool errs (i, false)).1) =
          (((termStep pool errs (i, false)).1, false), B) := by
        cases hl2 : ((termStep pool errs (i, false)).1).launch_request_id with
        | none => simp [allocStep, hl2]
        | some r => rw [hlz] at hl2; cases hl2
      rw [hstep]
      exact ⟨halloc, termStep_idem pool errs i⟩
  | some r =>
      by_cases hqr : i.status = .QUEUED ∨ i.status = .REQUESTED
      · have hcl : i.cloud_instance_id = none := hwf hqr
        cases hfu : firstUnassigned pool A i.instance_type with
        | some c =>
            have hstep : allocStep pool errs A i =
                (({ i with status := .ALLOCATED, cloud_instance_id := some c.id }, true),
                  c.id :: A) := by
              simp [allocStep, hl, hqr, hfu]
            have hcpool : pool.any (fun ci => decide (ci.id = c.id)) = true := by
              simp only [List.any_eq_true]
              exact ⟨c, List.mem_of_find?_eq_some hfu, by simp⟩
            constructor
            · simp only [hstep, termStep_frozen]
              apply allocStep_nofire_not_qr
              simp
            · simp only [hstep, termStep_frozen]
              simp [termStep, hcpool]
        | none =>
            by_cases herr : i.status = .REQUESTED ∧ launchErrMatch errs r = true
            · have hstep : allocStep pool errs A i =
                  (({ i with status := .ALLOCATION_FAILED }, true), A) := by
                simp [allocStep, hl, hqr, hfu, herr]
              constructor
              · simp only [hstep, termStep_frozen]
                apply allocStep_nofire_not_qr
                simp
              · simp only [hstep, termStep_frozen]
                simp [termStep, hcl]
            · have hstep : allocStep pool errs A i = ((i, false), A) := by
                simp [allocStep, hl, hqr, hfu, herr]
              have htm : termStep pool errs (i, false) = (i, false) := by
                simp [termStep, hcl]
              rw [hstep, htm]
              constructor
              · have hfuB : firstUnassigned pool B i.instance_type = none :=
                  firstUnassigned_none_mono hfu hAB
                simp [allocStep, hl, hqr, hfuB, herr]
              · exact htm
      · have hstep : allocStep pool errs A i = ((i, false), A) :=
          allocStep_nofire_not_qr hqr
        have hz : ¬(((termStep pool errs (i, false)).1).status = .QUEUED ∨
            ((termStep pool errs (i, false)).1).status = .REQUESTED) := by
          rcases termStep_status_cases pool errs (i, false) with h | h | h <;> rw [h]
          · exact hqr
          · rintro (hx | hx) <;> cases hx
          · rintro (hx | hx) <;> cases hx
        rw [hstep]
        exact ⟨allocStep_nofire_not_qr hz, termStep_idem pool errs i⟩

lemma assignedAfter_mono (pool errs) :
    ∀ (xs : List IMInstance) (A : List String) (c : String),
      c ∈ A → c ∈ assignedAfter pool errs A xs := by
  intro xs
  induction xs with
  | nil => intro A c hc; exact hc
  | cons i rest ih =>
      intro A c hc
      rw [assignedAfter_cons]
      exact ih _ _ (allocStep_assigned_mono hc)

/-- A second allocation-plus-termination pass over the output of a first pass is
the identity, as long as the second pass starts from an assigned-id set that
contains the first pass's initial set and every id it assigned. -/
lemma pass2_fixpoint (pool : List CloudInstance) (errs : List CloudInstanceProviderError) :
    ∀ (xs : List IMInstance) (A B : List String),
      (∀ i ∈ xs, (i.status = .QUEUED ∨ i.status = .REQUESTED) → i.cloud_instance_id = none) →
      (∀ c ∈ A, c ∈ B) →
      (∀ c ∈ assignedAfter pool errs A xs, c ∈ B) →
      ((allocGo pool errs B
          (((allocGo pool errs A xs).map (termStep pool errs)).map Prod.fst)).map
            (termStep pool errs)).map Prod.fst =
        ((allocGo pool errs A xs).map (termStep pool errs)).map Prod.fst := by
  intro xs
  induction xs with
  | nil => intro A B _ _ _; rfl
  | cons i rest ih =>
      intro A B hwf hAB hFin
      obtain ⟨ha2, ht2⟩ :=
        head_stable pool errs A B i (hwf i (List.mem_cons_self i rest)) hAB
      have hFin' : ∀ c ∈ assignedAfter pool errs (allocStep pool errs A i).2 rest, c ∈ B := by
        intro c hc
        exact hFin c (by rw [assignedAfter_cons]; exact hc)
      have hAB2 : ∀ c ∈ (allocStep pool errs A i).2, c ∈ B := by
        intro c hc
        exact hFin' c (assignedAfter_mono pool errs rest _ c hc)
      have htail := ih (allocStep pool errs A i).2 B
        (fun j hj => hwf j (List.mem_cons_of_mem i hj)) hAB2 hFin'
      rw [allocGo_cons, List.map_cons, List.map_cons, allocGo_cons]
      simp only [ha2, List.map_cons, ht2]
      rw [htail]

lemma mem_refsOf {l : List IMInstance} {c : String} :
    c ∈ refsOf l ↔ ∃ i ∈ l, i.cloud_instance_id = some c := by
  simp [refsOf, List.mem_filterMap]

lemma allocStep_cloud_some {pool errs A} {i : IMInstance} {c : String}
    (hwf : (i.status = .QUEUED ∨ i.status = .REQUESTED) → i.cloud_instance_id = none)
    (hc : i.cloud_instance_id = some c) :
    (allocStep pool errs A i).1.1.cloud_instance_id = some c := by
  cases hl : i.launch_request_id with
  | none => simp [allocStep, hl, hc]
  | some r =>
      by_cases hqr : i.status = .QUEUED ∨ i.status = .REQUESTED
      · rw [hwf hqr] at hc; cases hc
      · rw [allocStep_nofire_not_qr hqr]; exact hc

lemma refs_mono (pool errs) :
    ∀ (s : List IMInstance) (A : List String),
      (∀ i ∈ s, (i.status = .QUEUED ∨ i.status = .REQUESTED) → i.cloud_instance_id = none) →
      ∀ c, c ∈ refsOf s →
        c ∈ refsOf (((allocGo pool errs A s).map (termStep pool errs)).map Prod.fst) := by
  intro s
  induction s with
  | nil => intro A _ c hc; simp [refsOf] at hc
  | cons i rest ih =>
      intro A hwf c hc
      rw [mem_refsOf] at hc ⊢
      obtain ⟨j, hj, hjc⟩ := hc
      rw [allocGo_cons, List.map_cons, List.map_cons]
      rcases List.mem_cons.mp hj with rfl | hj'
      · refine ⟨_, List.mem_cons_self _ _, ?_⟩
        rw [termStep_cloud]
        exact allocStep_cloud_some (hwf j (List.mem_cons_self j rest)) hjc
      · have hrec := ih (allocStep pool errs A i).2
          (fun x hx => hwf x (List.mem_cons_of_mem i hx)) c
          (mem_refsOf.mpr ⟨j, hj', hjc⟩)
        rw [mem_refsOf] at hrec
        obtain ⟨z, hz, hzc⟩ := hrec
        exact ⟨z, List.mem_cons_of_mem _ hz, hzc⟩

lemma allocStep_assigned_cases (pool errs A) (i : IMInstance) :
    (allocStep pool errs A i).2 = A ∨
    ∃ cid, (allocStep pool errs A i).2 = cid :: A ∧
      (allocStep pool errs A i).1.1.cloud_instance_id = some cid := by
  cases hl : i.launch_request_id with
  | none => left; simp [allocStep, hl]
  | some r =>
      by_cases hqr : i.status = .QUEUED ∨ i.status = .REQUESTED
      · cases hfu : firstUnassigned pool A i.instance_type with
        | some c =>
            right
            exact ⟨c.id, by simp [allocStep, hl, hqr, hfu], by simp [allocStep, hl, hqr, hfu]⟩
        | none =>
            left
            by_cases herr : i.status = .REQUESTED ∧ launchErrMatch errs r = true
            · simp [allocStep, hl, hqr, hfu, herr]
            · simp [allocStep, hl, hqr, hfu, herr]
      · left; rw [allocStep_nofire_not_qr hqr]

lemma assignedAfter_sub (pool errs) :
    ∀ (xs : List IMInstance) (A : List String) (c : String),
      c ∈ assignedAfter pool errs A xs →
      c ∈ A ∨ c ∈ refsOf ((allocGo pool errs A xs).map Prod.fst) := by
  intro xs
  induction xs with
  | nil => intro A c hc; exact Or.inl hc
  | cons i rest ih =>
      intro A c hc
      rw [assignedAfter_cons] at hc
      rcases ih _ c hc with h | h
      · rcases allocStep_assigned_cases pool errs A i with he | ⟨cid, he, hcloud⟩
        · rw [he] at h; exact Or.inl h
        · rw [he] at h
          rcases List.mem_cons.mp h with rfl | h'
          · right
            rw [allocGo_cons, List.map_cons, mem_refsOf]
            exact ⟨_, List.mem_cons_self _ _, hcloud⟩
          · exact Or.inl h'
      · right
        rw [allocGo_cons, List.map_cons, mem_refsOf]
        rw [mem_refsOf] at h
        obtain ⟨z, hz, hzc⟩ := h
        exact ⟨z, List.mem_cons_of_mem _ hz, hzc⟩

lemma refs_term_map (pool errs) :
    ∀ (l : List (IMInstance × Bool)),
      refsOf ((l.map (termStep pool errs)).map Prod.fst) = refsOf (l.map Prod.fst) := by
  intro l
  induction l with
  | nil => rfl
  | cons p rest ih =>
      simp only [List.map_cons]
      cases hc : p.1.cloud_instance_id with
      | none =>
          simp only [refsOf, List.filterMap_cons, termStep_cloud, hc] at ih ⊢
          exact ih
      | some cc =>
          simp only [refsOf, List.filterMap_cons, termStep_cloud, hc] at ih ⊢
          rw [ih]

lemma allocStep_immut (pool errs A) (i : IMInstance) :
    immutView (allocStep pool errs A i).1.1 = immutView i := by
  unfold allocStep
  split
  · split
    · split
      · rfl
      · split
        · rfl
        · rfl
    · rfl
  · rfl

lemma termStep_immut (pool errs) (p : IMInstance × Bool) :
    immutView (termStep pool errs p).1 = immutView p.1 := by
  unfold termStep
  split
  · rfl
  · split
    · split
      · rfl
      · split
        · rfl
        · rfl
    · rfl

lemma rayRunningStep_immut (nodes) (p : IMInstance × Bool) :
    immutView (rayRunningStep nodes p).1 = immutView p.1 := by
  unfold rayRunningStep
  split
  · rfl
  · split
    · split
      · rfl
      · rfl
    · rfl

lemma rayStoppedStep_immut (nodes) (p : IMInstance × Bool) :
    immutView (rayStoppedStep nodes p).1 = immutView p.1 := by
  unfold rayStoppedStep
  split
  · rfl
  · split
    · split
      · rfl
      · rfl
    · rfl

lemma installFailedStep_immut (errs) (p : IMInstance × Bool) :
    immutView (installFailedStep errs p).1 = immutView p.1 := by
  unfold installFailedStep
  split
  · rfl
  · split
    · rfl
    · rfl

lemma sync_from_immut (s : List IMInstance) (inp : SyncInputs) (k : Nat) :
    ((Reconciler.sync_from s inp)[k]?).map immutView = (s[k]?).map immutView := by
  obtain ⟨A', -, h1⟩ := allocGo_get inp.non_terminated_cloud_instances
    inp.cloud_provider_errors s (refsOf s) k
  simp only [Reconciler.sync_from, syncStage5, syncStage4, syncStage3, syncStage2,
    syncStage1, List.getElem?_map, h1, Option.map_map]
  cases hk : s[k]? with
  | none => rfl
  | some i =>
      simp only [Option.map_some', Function.comp_apply]
      rw [installFailedStep_immut, rayStoppedStep_immut, rayRunningStep_immut,
        termStep_immut, allocStep_immut]

/-- C2, counterexample: two queued instances, two unassigned cloud instances, a
joined ray node on `c1` and an install error for `i2`.  The first call
allocates both instances (one transition each); only the second call can then
apply `ALLOCATED → RAY_RUNNING` and `ALLOCATED → RAY_INSTALL_FAILED`, so the
second call is not a no-op. -/
theorem C2_counterexample :
    Reconciler.sync_from (Reconciler.sync_from c2store c2inp) c2inp ≠
      Reconciler.sync_from c2store c2inp := by
  decide

/-- C2 (amended): `sync_from` never creates or deletes instance records — the
store keeps its length and every record keeps its id, machine type and
launch-request id (only status and cloud-instance id change) — and it is
idempotent on the allocation and termination rules: for a store satisfying the
section-3 invariant (`QUEUED`/`REQUESTED` records carry no cloud-instance id)
and a snapshot with no ray-node states and no install errors, a second
identical call is a no-op.  (Full idempotence fails: a transition made by the
first call can enable a different rule on the second, see the
counterexample.) -/
theorem C2_sync_from_idempotent_restricted :
    (∀ (s : List IMInstance) (inp : SyncInputs),
      (Reconciler.sync_from s inp).length = s.length ∧
      ∀ k : Nat,
        ((Reconciler.sync_from s inp)[k]?).map immutView = (s[k]?).map immutView) ∧
    (∀ (s : List IMInstance) (inp : SyncInputs),
      storeWF s → inp.ray_nodes = [] → inp.ray_install_errors = [] →
      Reconciler.sync_from (Reconciler.sync_from s inp) inp =
        Reconciler.sync_from s inp) := by
  constructor
  · intro s inp
    exact ⟨sync_from_length s inp, sync_from_immut s inp⟩
  · intro s inp hwf hray hinst
    have hF : Reconciler.sync_from s inp =
        ((allocGo inp.non_terminated_cloud_instances inp.cloud_provider_errors
            (refsOf s) s).map
          (termStep inp.non_terminated_cloud_instances inp.cloud_provider_errors)).map
          Prod.fst := by
      rw [sync_from_no_ray s inp hray hinst]
      rfl
    have hFF : Reconciler.sync_from (Reconciler.sync_from s inp) inp =
        ((allocGo inp.non_terminated_cloud_instances inp.cloud_provider_errors
            (refsOf (Reconciler.sync_from s inp)) (Reconciler.sync_from s inp)).map
          (termStep inp.non_terminated_cloud_instances inp.cloud_provider_errors)).map
          Prod.fst := by
      rw [sync_from_no_ray _ inp hray hinst]
      rfl
    rw [hFF, hF]
    refine pass2_fixpoint inp.non_terminated_cloud_instances inp.cloud_provider_errors
      s (refsOf s) _ hwf
      (fun c hc => refs_mono _ _ s (refsOf s) hwf c hc) ?_
    intro c hc
    rcases assignedAfter_sub inp.non_terminated_cloud_instances
        inp.cloud_provider_errors s (refsOf s) c hc with h | h
    · exact refs_mono _ _ s (refsOf s) hwf c h
    · rw [← refs_term_map inp.non_terminated_cloud_instances inp.cloud_provider_errors] at h
      exact h

/-- Witness for `C2_sync_from_idempotent_restricted`: record preservation on
the two-instance store, and idempotence on a `REQUESTED` store with a launch
error and no ray nodes or install errors. -/
theorem C2_sync_from_idempotent_restricted_witness :
    (Reconciler.sync_from c2store c2inp).length = c2store.length ∧
    Reconciler.sync_from (Reconciler.sync_from c9store c9inp) c9inp =
      Reconciler.sync_from c9store c9inp :=
  ⟨(C2_sync_from_idempotent_restricted.1 c2store c2inp).1,
   C2_sync_from_idempotent_restricted.2 c9store c9inp (by decide) rfl rfl⟩

end RayAutoscaler
